import Mathlib

/-
Shallow embedding of the content-ai-agent repository core
(`content_ai_agent/main.py` and `content_ai_agent/modules/`): the scheduler,
the analytics aggregator, the content-strategy generator, the content agent
and the orchestrator, together with theorems settling the specification
claims about them.

Modelling conventions:
- Python `datetime` values are modelled by the `DT` structure (absolute day
  number plus hour and minute); `timedelta(days=n)` is `DT.addDays`,
  `dt.replace(hour, minute, second=0, microsecond=0)` is `DT.replaceTime`,
  and `strftime` renderings are modelled by injective numeric renderings.
- Python dicts with string keys are association lists (`List (String × α)`)
  with first-match lookup (`List.lookup`) and insert-or-replace update
  (`setEntry`), matching dict insertion-order semantics.
- Python `None` inside an optional value is `Option.none`.
- Calls to the external language-model gateway (an unreliable third-party
  API) composed with the JSON parsing of their raw output are modelled as
  oracle functions returning `Except String _`; theorems quantify over all
  oracle behaviours.  Static instruction text inside prompts is modelled by
  the dynamic parts that the code later inspects; no verified property
  depends on the elided prose.
- Python floats produced by the engagement-rate arithmetic are modelled as
  rationals (the code only divides and multiplies small integers).
-/

namespace ContentAgent

/-- Model of Python `datetime`: absolute day number, hour and minute. -/
structure DT where
  day : Int
  hour : Nat
  minute : Nat
deriving DecidableEq, Repr

/-- `dt + timedelta(days=n)`. -/
def DT.addDays (d : DT) (n : Int) : DT := { d with day := d.day + n }

/-- `dt.replace(hour=h, minute=m, second=0, microsecond=0)`. -/
def DT.replaceTime (d : DT) (h m : Nat) : DT := { d with hour := h, minute := m }

/-- Chronological order on model datetimes (lexicographic), as a Boolean. -/
def DT.leb (a b : DT) : Bool :=
  a.day < b.day ∨ (a.day = b.day ∧ (a.hour < b.hour ∨ (a.hour = b.hour ∧ a.minute ≤ b.minute)))

/-- Rendering of `strftime('%Y%m%d%H%M')`, modelled by an injective numeric
rendering of the datetime components. -/
def DT.stamp (d : DT) : String :=
  toString d.day ++ toString d.hour ++ toString d.minute

/-- Rendering of `strftime('%Y-%m-%d')`, modelled by the day number. -/
def DT.dateStr (d : DT) : String := toString d.day

/-- Rendering of `strftime('%Y-%W')` (year-week key), modelled by the week
number of the absolute day. -/
def DT.weekKey (d : DT) : String := toString (d.day / 7)

/-- `ContentFormat` enum (`modules/content_agent.py`). -/
inductive ContentFormat where
  | post | article | thread | video_script | email | ad
deriving DecidableEq, Repr

/-- `ContentFormat.value` strings. -/
def ContentFormat.value : ContentFormat → String
  | .post => "post"
  | .article => "article"
  | .thread => "thread"
  | .video_script => "video_script"
  | .email => "email"
  | .ad => "ad"

/-- `ContentStatus` enum (`modules/content_agent.py`). -/
inductive ContentStatus where
  | draft | approved | scheduled | published | archived
deriving DecidableEq, Repr

/-- `ScheduleStatus` enum (`modules/scheduler.py`). -/
inductive ScheduleStatus where
  | draft | active | paused | completed
deriving DecidableEq, Repr

/-- `ContentPiece` dataclass (`modules/content_agent.py`).  The `metrics`
dict maps metric names to integers. -/
structure ContentPiece where
  id : String
  title : String
  content : String
  format : ContentFormat
  pillar : String
  funnel_stage : String
  channel : String
  tone_of_voice : String
  key_messages : List String
  status : ContentStatus
  created_at : DT
  scheduled_for : Option DT := none
  published_at : Option DT := none
  metrics : Option (List (String × Int)) := none
deriving DecidableEq, Repr

/-- `ScheduledPost` dataclass (`modules/scheduler.py`). -/
structure ScheduledPost where
  id : String
  content : ContentPiece
  scheduled_time : DT
  channel : String
  status : ScheduleStatus
  published : Bool := false
  published_at : Option DT := none
deriving DecidableEq, Repr

/-- Python-dict update: replace the value at the first occurrence of the
key, otherwise append the binding at the end (insertion order). -/
def setEntry {α : Type} : List (String × α) → String → α → List (String × α)
  | [], k, v => [(k, v)]
  | (k', v') :: rest, k, v =>
    if k' == k then (k, v) :: rest else (k', v') :: setEntry rest k v

/-- `Config.OPTIMAL_POSTING_TIMES` (`config.py`). -/
def OPTIMAL_POSTING_TIMES : List (String × List String) :=
  [("linkedin", ["09:00", "13:00", "17:00"]),
   ("twitter", ["08:00", "12:00", "16:00", "20:00"]),
   ("telegram", ["08:00", "13:00", "18:00"])]

/-- `Config.OPTIMAL_POSTING_TIMES.get(channel, ["09:00","13:00","17:00"])`. -/
def optimalTimes (channel : String) : List String :=
  (OPTIMAL_POSTING_TIMES.lookup channel).getD ["09:00", "13:00", "17:00"]

/-- `hour, minute = map(int, time_str.split(':'))`. -/
def parseTime (s : String) : Nat × Nat :=
  match s.splitOn ":" with
  | [h, m] => ((h.toNat?).getD 0, (m.toNat?).getD 0)
  | _ => (0, 0)

/-- Inner weekday loop of `ContentScheduler.create_schedule`
(`modules/scheduler.py` lines 81-107): `for day in range(5)` with the
early `break` once the piece list is exhausted; a slot is filled only while
`day < posts_this_week`; the walking date advances one day per slot.
`fuel` counts the remaining weekday slots (initially 5, `day` initially 0). -/
def scheduleDays (channel : String) (times : List String) (pieces : List ContentPiece)
    (ptw : Nat) : Nat → Nat → DT → Nat → List ScheduledPost → DT × Nat × List ScheduledPost
  | 0, _, d, idx, acc => (d, idx, acc)
  | fuel + 1, day, d, idx, acc =>
    if pieces.length ≤ idx then (d, idx, acc)
    else if day < ptw then
      match pieces.get? idx with
      | some piece =>
        let time_str := (times.get? (day % times.length)).getD "09:00"
        let hm := parseTime time_str
        let st := d.replaceTime hm.1 hm.2
        let post : ScheduledPost :=
          { id := "schedule_" ++ channel ++ "_" ++ st.stamp
            content := piece
            scheduled_time := st
            channel := channel
            status := .draft }
        scheduleDays channel times pieces ptw fuel (day + 1) (d.addDays 1) (idx + 1)
          (acc ++ [post])
      | none => (d, idx, acc)
    else
      scheduleDays channel times pieces ptw fuel (day + 1) (d.addDays 1) idx acc

/-- Outer week loop of `create_schedule` (`for week in range(4)`):
`posts_this_week = min(posts_per_week, len(content_pieces) - content_index)`,
then the weekday loop, then two extra days to skip the weekend. -/
def scheduleWeeks (channel : String) (times : List String) (pieces : List ContentPiece)
    (ppw : Nat) : Nat → DT → Nat → List ScheduledPost → DT × Nat × List ScheduledPost
  | 0, d, idx, acc => (d, idx, acc)
  | w + 1, d, idx, acc =>
    let ptw := min ppw (pieces.length - idx)
    let r := scheduleDays channel times pieces ptw 5 0 d idx acc
    scheduleWeeks channel times pieces ppw w (r.1.addDays 2) r.2.1 r.2.2

/-- Per-channel body of `create_schedule`: the content-index cursor starts
at `0` for this channel (it is re-initialised inside the channel loop in
the source). -/
def scheduleChannel (pieces : List ContentPiece) (start : DT) (ppw : Nat)
    (channel : String) : List ScheduledPost :=
  (scheduleWeeks channel (optimalTimes channel) pieces ppw 4 start 0 []).2.2

/-- `ContentScheduler.create_schedule` (`modules/scheduler.py` lines 42-113):
builds the channel → scheduled-posts dict, iterating channels in order. -/
def create_schedule (pieces : List ContentPiece) (start : DT) (channels : List String)
    (ppw : Nat) : List (String × List ScheduledPost) :=
  channels.foldl (fun m ch => setEntry m ch (scheduleChannel pieces start ppw ch)) []

/-- Total number of scheduled posts across all channels of a schedule. -/
def totalScheduled (schedule : List (String × List ScheduledPost)) : Nat :=
  (schedule.map (fun e => e.2.length)).sum

/-! ## Analytics (`modules/analytics.py`) -/

/-- `ContentMetrics` dataclass (`modules/analytics.py` lines 9-28).
`engagement_rate` is a float, modelled as a rational. -/
structure ContentMetrics where
  content_id : String
  views : Int := 0
  likes : Int := 0
  comments : Int := 0
  shares : Int := 0
  clicks : Int := 0
  engagement_rate : ℚ := 0
  reach : Int := 0
  impressions : Int := 0
deriving DecidableEq, Repr

/-- `ContentMetrics.calculate_engagement_rate`: recomputes the rate only
when `impressions > 0`; otherwise the stored rate is left untouched.
Returns the updated record (the Python method mutates `self`). -/
def ContentMetrics.calculate_engagement_rate (m : ContentMetrics) : ContentMetrics :=
  if 0 < m.impressions then
    { m with engagement_rate :=
        ((m.likes + m.comments + m.shares : ℚ) / (m.impressions : ℚ)) * 100 }
  else m

/-- The `metrics_data` dict passed to `track_content`: each key may be
present (`some`) or absent (`none`); `metrics_data.get(k, old)` keeps the
old value for absent keys. -/
structure MetricsData where
  views : Option Int := none
  likes : Option Int := none
  comments : Option Int := none
  shares : Option Int := none
  clicks : Option Int := none
  reach : Option Int := none
  impressions : Option Int := none
deriving DecidableEq, Repr

/-- The field-by-field update block of `track_content`
(`metrics.views = metrics_data.get('views', metrics.views)` and friends). -/
def applyMetricsData (m : ContentMetrics) (d : MetricsData) : ContentMetrics :=
  { m with
    views := d.views.getD m.views
    likes := d.likes.getD m.likes
    comments := d.comments.getD m.comments
    shares := d.shares.getD m.shares
    clicks := d.clicks.getD m.clicks
    reach := d.reach.getD m.reach
    impressions := d.impressions.getD m.impressions }

/-- `content.metrics.update(metrics_data)`: mirror the raw delta into the
piece's own metrics dict, key by key for the keys present in the delta. -/
def updateMetricsDict (dict : List (String × Int)) (d : MetricsData) : List (String × Int) :=
  let step := fun (acc : List (String × Int)) (kv : String × Option Int) =>
    match kv.2 with
    | some v => setEntry acc kv.1 v
    | none => acc
  [("views", d.views), ("likes", d.likes), ("comments", d.comments),
   ("shares", d.shares), ("clicks", d.clicks), ("reach", d.reach),
   ("impressions", d.impressions)].foldl step dict

/-- `SimpleAnalytics.track_content` (`modules/analytics.py` lines 57-88):
creates the record on first sight of the id, overwrites the supplied
fields, recomputes the engagement rate, stores the record back into
`self.metrics`, and mirrors the delta into `content.metrics`.
Returns (metrics record, updated metrics map, updated piece). -/
def track_content (metricsMap : List (String × ContentMetrics)) (content : ContentPiece)
    (d : MetricsData) : ContentMetrics × List (String × ContentMetrics) × ContentPiece :=
  let m0 := (metricsMap.lookup content.id).getD { content_id := content.id }
  let m1 := applyMetricsData m0 d
  let m2 := m1.calculate_engagement_rate
  let metricsMap' := setEntry metricsMap content.id m2
  let piece' := { content with metrics := some (updateMetricsDict (content.metrics.getD []) d) }
  (m2, metricsMap', piece')

/-- `self.metrics.get(c.id, ContentMetrics(c.id))`. -/
def metricsFor (metricsMap : List (String × ContentMetrics)) (id : String) : ContentMetrics :=
  (metricsMap.lookup id).getD { content_id := id }

/-- Per-channel record of `channel_performance` in `generate_report`. -/
structure ChannelPerf where
  posts : Nat := 0
  views : Int := 0
  engagement : Int := 0
  avg_engagement_rate : ℚ := 0
deriving DecidableEq, Repr

/-- Per-group record of `pillar_performance` and `funnel_stage_performance`
in `generate_report` (only a post count and a rate field are created). -/
structure GroupPerf where
  posts : Nat := 0
  avg_engagement_rate : ℚ := 0
deriving DecidableEq, Repr

/-- One entry of `top_performing_content`: content id, title, total
engagement, engagement rate. -/
structure TopEntry where
  content_id : String
  title : String
  engagement : Int
  engagement_rate : ℚ
deriving DecidableEq, Repr

/-- `AnalyticsReport` dataclass (`modules/analytics.py` lines 30-42). -/
structure AnalyticsReport where
  period_start : DT
  period_end : DT
  total_posts : Nat
  total_views : Int
  total_engagement : Int
  avg_engagement_rate : ℚ
  top_performing_content : List TopEntry
  channel_performance : List (String × ChannelPerf)
  pillar_performance : List (String × GroupPerf)
  funnel_stage_performance : List (String × GroupPerf)
deriving DecidableEq, Repr

/-- likes + comments + shares of the tracked metrics of a piece. -/
def pieceEngagement (metricsMap : List (String × ContentMetrics)) (c : ContentPiece) : Int :=
  (metricsFor metricsMap c.id).likes + (metricsFor metricsMap c.id).comments +
    (metricsFor metricsMap c.id).shares

/-- Stable descending insertion by total engagement: a new element is
placed after every element with an equal or larger key, matching Python's
stable `sort(key=..., reverse=True)`. -/
def insertByEngagementDesc (x : ContentPiece × ContentMetrics × Int) :
    List (ContentPiece × ContentMetrics × Int) → List (ContentPiece × ContentMetrics × Int)
  | [] => [x]
  | y :: ys => if y.2.2 < x.2.2 then x :: y :: ys else y :: insertByEngagementDesc x ys

/-- The group-accumulation loops of `generate_report`: walk the period
content, look up (or default-create) the entry keyed by `key c`, and bump
it with `bump`.  Shared by the channel, pillar and funnel-stage loops. -/
def accumGroups {α : Type} (key : ContentPiece → String) (dflt : α)
    (bump : α → ContentPiece → α) (m : List (String × α)) :
    List ContentPiece → List (String × α)
  | [] => m
  | c :: cs =>
    accumGroups key dflt bump (setEntry m (key c) (bump ((m.lookup (key c)).getD dflt) c)) cs

/-- Engagement rates, over only the members whose rate is positive, of a
list of pieces (`[rate for c in ... if rate > 0]`). -/
def positiveRates (metricsMap : List (String × ContentMetrics))
    (cs : List ContentPiece) : List ℚ :=
  (cs.filter (fun c => 0 < (metricsFor metricsMap c.id).engagement_rate)).map
    (fun c => (metricsFor metricsMap c.id).engagement_rate)

/-- The period filter of `generate_report` (`modules/analytics.py` lines
106-112): keep pieces whose `published_at` (preferred) or `created_at`
falls inside the period. -/
def periodFilter (start_date end_date : DT) (content_list : List ContentPiece) :
    List ContentPiece :=
  content_list.filter (fun c =>
    let d := c.published_at.getD c.created_at
    start_date.leb d && d.leb end_date)

/-- The per-piece increment of the channel-performance pass. -/
def channelBump (metricsMap : List (String × ContentMetrics)) (cur : ChannelPerf)
    (c : ContentPiece) : ChannelPerf :=
  { cur with
    posts := cur.posts + 1
    views := cur.views + (metricsFor metricsMap c.id).views
    engagement := cur.engagement + pieceEngagement metricsMap c }

/-- The per-piece increment of the pillar/funnel-stage passes (post count
only; the rate field of the group record is never written). -/
def groupBump (cur : GroupPerf) (_c : ContentPiece) : GroupPerf :=
  { cur with posts := cur.posts + 1 }

/-- The second channel pass of `generate_report` (lines 176-189): sets the
channel's mean engagement rate over its rate-positive members, leaving the
record untouched when no member has a positive rate. -/
def channelAvgFix (metricsMap : List (String × ContentMetrics))
    (period_content : List ContentPiece) (ch : String) (rec : ChannelPerf) : ChannelPerf :=
  let channel_rates := positiveRates metricsMap
    (period_content.filter (fun c => c.channel == ch))
  if channel_rates.isEmpty then rec
  else { rec with avg_engagement_rate := channel_rates.sum / channel_rates.length }

/-- `SimpleAnalytics.generate_report` (`modules/analytics.py` lines 94-238). -/
def generate_report (metricsMap : List (String × ContentMetrics))
    (start_date end_date : DT) (content_list : List ContentPiece) : AnalyticsReport :=
  let period_content := periodFilter start_date end_date content_list
  let total_posts := period_content.length
  let total_views := (period_content.map (fun c => (metricsFor metricsMap c.id).views)).sum
  let total_engagement := (period_content.map (pieceEngagement metricsMap)).sum
  let engagement_rates := positiveRates metricsMap period_content
  let avg_engagement_rate : ℚ :=
    if engagement_rates.isEmpty then 0 else engagement_rates.sum / engagement_rates.length
  -- top content: stable sort by total engagement, descending, keep 5
  let content_with_metrics := period_content.map
    (fun c => (c, metricsFor metricsMap c.id, pieceEngagement metricsMap c))
  let sorted := content_with_metrics.foldl (fun acc x => insertByEngagementDesc x acc) []
  let top_performing := sorted.take 5
  -- channel performance: counting pass, then average pass over the keys
  let perf0 := accumGroups (fun c => c.channel) ({} : ChannelPerf)
    (channelBump metricsMap) [] period_content
  let channel_performance := perf0.map (fun e =>
    (e.1, channelAvgFix metricsMap period_content e.1 e.2))
  -- pillar and funnel-stage performance: post counts only, the
  -- avg_engagement_rate field keeps its creation value 0.0
  let pillar_performance := accumGroups (fun c => c.pillar) ({} : GroupPerf)
    groupBump [] period_content
  let funnel_performance := accumGroups (fun c => c.funnel_stage) ({} : GroupPerf)
    groupBump [] period_content
  { period_start := start_date
    period_end := end_date
    total_posts := total_posts
    total_views := total_views
    total_engagement := total_engagement
    avg_engagement_rate := avg_engagement_rate
    top_performing_content := top_performing.map (fun x =>
      { content_id := x.1.id, title := x.1.title, engagement := x.2.2,
        engagement_rate := x.2.1.engagement_rate })
    channel_performance := channel_performance
    pillar_performance := pillar_performance
    funnel_stage_performance := funnel_performance }

/-! ## Audience insight data model (`main.py` / `modules/content_strategy.py`) -/

/-- The dynamically-shaped `motivations` value: the expansion step may
produce a core/rational/emotional record, a flat list, or a bare string
(the content agent type-sniffs all three shapes). -/
inductive Motivations where
  | struct (core rational emotional : String)
  | flat (items : List String)
  | text (s : String)
deriving DecidableEq, Repr

/-- `language_patterns` sub-record of the expansion result. -/
structure LanguagePatterns where
  common_phrases : List String := []
  style : String := ""
  do_not_say : List String := []
deriving DecidableEq, Repr

/-- `expectations` sub-record of the expansion result. -/
structure Expectations where
  from_solution : String := ""
  from_brand : String := ""
deriving DecidableEq, Repr

/-- `fears` sub-record of the expansion result. -/
structure Fears where
  barriers : List String := []
  negative_beliefs : List String := []
deriving DecidableEq, Repr

/-- Per-channel activity flags of the `digital_footprint` sub-record read
by `_select_channels`. -/
structure Footprint where
  linkedin_active : Bool := false
  twitter_active : Bool := false
  telegram_active : Bool := false
deriving DecidableEq, Repr

/-- Shape of the audience-expansion result (the keys merged verbatim into
the aggregated insight record by `expand_audience_insights`). -/
structure ExpansionResult where
  motivations : Motivations
  triggers : List String
  language_patterns : LanguagePatterns
  expectations : Expectations
  aspirations : List String
  fears : Fears
deriving DecidableEq, Repr

/-- The aggregated audience-insight dict built by
`ContentAIAgent.expand_audience_insights` (`main.py` lines 402-413): the
three named fields read from the level results (each a Python string or
`None`, hence `Option String`), plus every key of the expansion result.
`segment_type` and `digital_footprint` are consulted downstream via
`dict.get` and are absent (`none`) on records built by the orchestrator. -/
structure AudienceInsights where
  main_pain : Option String := none
  main_task : Option String := none
  target_segment : Option String := none
  motivations : Motivations := .flat []
  triggers : List String := []
  language_patterns : LanguagePatterns := {}
  expectations : Expectations := {}
  aspirations : List String := []
  fears : Fears := {}
  segment_type : Option String := none
  digital_footprint : Option Footprint := none
deriving DecidableEq, Repr

/-- Python `f"{x}"` rendering of a string-or-None value. -/
def pyStr : Option String → String
  | none => "None"
  | some s => s

/-- Python `', '.join(x)` applied to the dynamically-shaped motivations
value: joining a dict joins its keys, joining a string joins its
characters. -/
def joinMotivations : Motivations → String
  | .struct _ _ _ => "core, rational, emotional"
  | .flat items => String.intercalate ", " items
  | .text s => String.intercalate ", " (s.toList.map Char.toString)

/-! ## Content strategy (`modules/content_strategy.py`) -/

/-- One slot of the content calendar (`_generate_content_calendar`). -/
structure CalendarSlot where
  date : String
  pillar : String
  funnel_stage : String
  topic : String
  format : String
  status : String
deriving DecidableEq, Repr

/-- `ContentStrategy` dataclass (`modules/content_strategy.py` lines 9-19). -/
structure ContentStrategy where
  target_audience : AudienceInsights
  content_pillars : List String
  content_funnel : List (String × List String)
  content_calendar : List (String × List CalendarSlot)
  tone_of_voice : String
  key_messages : List String
  channels : List String
  posting_schedule : List (String × List String)
deriving DecidableEq, Repr

/-- Oracle for the strategy generator's language-model calls: whether a
client is configured, and, per prompt, the pillar-names call and the
key-messages call each composed with their JSON parsing and name/text
extraction (success yields the extracted string list, failure models any
exception raised by the call or the parse). -/
structure StrategyEnv where
  has_client : Bool
  pillars_resp : String → Except String (List String)
  messages_resp : String → Except String (List String)

/-- Dynamic part of the pillar prompt (the interpolated insight and
product fields; the static instruction text is elided). -/
def pillarsPrompt (product_profile : List (String × String)) (insights : AudienceInsights) :
    String :=
  pyStr insights.main_pain ++ "|" ++ pyStr insights.main_task ++ "|" ++
    joinMotivations insights.motivations ++ "|" ++
    String.intercalate ", " insights.aspirations ++ "|" ++
    ((product_profile.lookup "name").getD "") ++ "|" ++
    ((product_profile.lookup "value_proposition").getD "")

/-- `ContentStrategyGenerator._generate_content_pillars`
(`modules/content_strategy.py` lines 99-189): one model call extracting
the non-empty pillar names; on any failure, empty extraction, or no
client, the fixed six-name fallback list. -/
def generate_content_pillars (env : StrategyEnv) (product_profile : List (String × String))
    (insights : AudienceInsights) : List String :=
  let fallback := ["Решение главной боли", "Достижение целей и стремлений",
    "Преодоление страхов и барьеров", "Образование и инсайты",
    "Социальное доказательство", "Трансформация и результаты"]
  if env.has_client then
    match env.pillars_resp (pillarsPrompt product_profile insights) with
    | .ok raw =>
      let pillars := raw.filter (fun p => ¬ p.isEmpty)
      if pillars.isEmpty then fallback else pillars
    | .error _ => fallback
  else fallback

/-- `ContentStrategyGenerator._create_content_funnel`
(`modules/content_strategy.py` lines 191-248): pure deterministic
construction, five fixed stage keys with three template strings each, two
of them interpolated from `main_pain` (the key is always present on
orchestrator-built insights, so Python's dict default is dead and a null
choice renders as `"None"`). -/
def create_content_funnel (insights : AudienceInsights)
    (_product_profile : List (String × String)) : List (String × List String) :=
  [("awareness",
    ["Как решить " ++ pyStr insights.main_pain,
     "Триггеры, которые обостряют " ++ pyStr insights.main_pain,
     "Почему текущие решения не работают"]),
   ("interest",
    ["Как продукт решает проблему", "Кейсы успешного решения", "Инсайты о проблеме"]),
   ("consideration",
    ["Сравнение с альтернативами", "Детальное объяснение решения", "Ответы на возражения"]),
   ("decision",
    ["Социальное доказательство", "Ограниченное предложение", "Гарантии и снижение рисков"]),
   ("action",
    ["Призыв к действию", "Как начать", "Первые шаги"])]

/-- `ContentStrategyGenerator._generate_content_calendar`
(`modules/content_strategy.py` lines 250-281): four weekly buckets keyed
by the year-week of `now + week` weeks, each with five weekday slots;
pillar chosen by `day % len(pillars)`, funnel stage by
`week % len(funnel)`. -/
def generate_content_calendar (content_pillars : List String)
    (content_funnel : List (String × List String)) (now : DT) :
    List (String × List CalendarSlot) :=
  let funnel_keys := content_funnel.map (fun e => e.1)
  (List.range 4).map (fun (week : Nat) =>
    let week_start := now.addDays (7 * Int.ofNat week)
    (week_start.weekKey,
     (List.range 5).map (fun (day : Nat) =>
       let post_date := week_start.addDays (Int.ofNat day)
       let pillar := (content_pillars.get? (day % content_pillars.length)).getD ""
       let funnel_stage := (funnel_keys.get? (week % funnel_keys.length)).getD ""
       { date := post_date.dateStr
         pillar := pillar
         funnel_stage := funnel_stage
         topic := "Тема из столпа '" ++ pillar ++ "' для стадии '" ++
                  funnel_stage ++ "'"
         format := "post"
         status := "draft" })))

/-- `ContentStrategyGenerator._determine_tone_of_voice`
(`modules/content_strategy.py` lines 283-295). -/
def determine_tone_of_voice (_product_profile : List (String × String))
    (insights : AudienceInsights) : String :=
  if insights.segment_type = some "technical" then "professional_expert"
  else if insights.segment_type = some "entrepreneur" then "confident_inspiring"
  else "friendly_professional"

/-- Dynamic part of the key-messages prompt. -/
def messagesPrompt (product_profile : List (String × String)) (insights : AudienceInsights) :
    String :=
  ((product_profile.lookup "name").getD "") ++ "|" ++
    ((product_profile.lookup "description").getD "") ++ "|" ++
    ((product_profile.lookup "value_proposition").getD "") ++ "|" ++
    pyStr insights.main_pain ++ "|" ++ pyStr insights.main_task

/-- `ContentStrategyGenerator._generate_key_messages`
(`modules/content_strategy.py` lines 297-364): one model call extracting
non-blank message strings; on any failure or empty extraction, three
templated fallback strings. -/
def generate_key_messages (env : StrategyEnv) (product_profile : List (String × String))
    (insights : AudienceInsights) : List String :=
  let fallback :=
    [(product_profile.lookup "value_proposition").getD "",
     "Решаем " ++ pyStr insights.main_pain,
     "Помогаем достичь " ++ pyStr insights.main_task]
  if env.has_client then
    match env.messages_resp (messagesPrompt product_profile insights) with
    | .ok raw =>
      let messages := raw.filter (fun m => ¬ m.trim.isEmpty)
      if messages.isEmpty then fallback else messages
    | .error _ => fallback
  else fallback

/-- `ContentStrategyGenerator._select_channels`
(`modules/content_strategy.py` lines 366-383). -/
def select_channels (insights : AudienceInsights) : List String :=
  let fp := insights.digital_footprint.getD {}
  let channels :=
    (if fp.linkedin_active then ["linkedin"] else []) ++
    (if fp.twitter_active then ["twitter"] else []) ++
    (if fp.telegram_active then ["telegram"] else [])
  if channels.isEmpty then ["linkedin", "twitter"] else channels

/-- `ContentStrategyGenerator._create_posting_schedule`
(`modules/content_strategy.py` lines 385-395). -/
def create_posting_schedule (channels : List String) : List (String × List String) :=
  channels.foldl (fun m ch => setEntry m ch (optimalTimes ch)) []

/-- `ContentStrategyGenerator.generate_strategy`
(`modules/content_strategy.py` lines 44-97); `now` models the
`datetime.now()` read inside `_generate_content_calendar`. -/
def generate_strategy (env : StrategyEnv) (now : DT)
    (product_profile : List (String × String)) (insights : AudienceInsights)
    (_business_goals : List String) : ContentStrategy :=
  let content_pillars := generate_content_pillars env product_profile insights
  let content_funnel := create_content_funnel insights product_profile
  let content_calendar := generate_content_calendar content_pillars content_funnel now
  { target_audience := insights
    content_pillars := content_pillars
    content_funnel := content_funnel
    content_calendar := content_calendar
    tone_of_voice := determine_tone_of_voice product_profile insights
    key_messages := generate_key_messages env product_profile insights
    channels := select_channels insights
    posting_schedule := create_posting_schedule (select_channels insights) }

/-- The date-free shape of a calendar slot (everything but the rendered
date). -/
def slotShape (s : CalendarSlot) : String × String × String × String × String :=
  (s.pillar, s.funnel_stage, s.topic, s.format, s.status)

/-- The date-free shape of a whole calendar: week keys and slot dates
erased. -/
def calendarShape (cal : List (String × List CalendarSlot)) :
    List (List (String × String × String × String × String)) :=
  cal.map (fun e => e.2.map slotShape)

/-! ## Content agent (`modules/content_agent.py`) -/

/-- Substring test, via Python's `in` semantics for a non-empty needle. -/
def containsSub (s sub : String) : Bool := (s.splitOn sub).length != 1

/-- The product dict handed to the generators (`name`, `description`,
`value_proposition`, `key_features` and friends, read with
`dict.get(..., default)`). -/
structure ProductSlice where
  name : String := ""
  description : String := ""
  category : String := ""
  value_proposition : String := ""
  key_features : List String := []
deriving DecidableEq, Repr

/-- The strategy slice dict handed to `generate_content` (keys may be
absent, matching `content_strategy.get(key, default)`). -/
structure StrategySlice where
  pillar : Option String := none
  funnel_stage : Option String := none
  tone_of_voice : Option String := none
  key_messages : Option (List String) := none
deriving DecidableEq, Repr

/-- Environment of the content agent: whether a gateway client is
configured, the completion call as an oracle (prompt to raw text or
error), and the `datetime.now()` / `uuid4` supplies consumed when a piece
is created (indexed by the agent's generation counter). -/
structure GenEnv where
  has_client : Bool
  complete : String → Except String String
  clock : Nat → DT
  uuid : Nat → String

/-- Mutable state of `AIContentAgent`: the append-only content history,
plus the generation counter feeding the id/time supplies. -/
structure AIContentAgentState where
  history : List ContentPiece := []
  tick : Nat := 0

/-- `prompt.split('тему: ')[1].split('"')[0] if 'тему: ' in prompt else
dflt` — the topic extraction used by both failure paths of `_call_llm`. -/
def extractPromptTopic (prompt dflt : String) : String :=
  match prompt.splitOn "тему: " with
  | _ :: second :: _ => (second.splitOn "\"").headD ""
  | _ => dflt

/-- Python truthiness of an optional string (`None` and `""` are falsy). -/
def truthyStr : Option String → Bool
  | none => false
  | some s => ¬ s.isEmpty

/-- Rendering of `audience_insights.get('main_pain', '')` inside a prompt:
an absent insight dict contributes the default, a present key renders its
value (`None` renders as `"None"`). -/
def promptField (insights : Option AudienceInsights) (f : AudienceInsights → Option String) :
    String :=
  match insights with
  | none => ""
  | some i => pyStr (f i)

/-- The motivation-normalisation block of `_build_generation_prompt`
(`modules/content_agent.py` lines 124-137): dict shape contributes the
non-blank core/emotional/rational values, list shape the non-blank items,
string shape itself; capped at 3 and joined. -/
def motivationsText (insights : Option AudienceInsights) : String :=
  let raw := (insights.map (fun i => i.motivations)).getD (.flat [])
  let l : List String :=
    match raw with
    | .struct core rational emotional =>
      ([core, emotional, rational].map String.trim).filter (fun v => ¬ v.isEmpty)
    | .flat items => (items.map String.trim).filter (fun v => ¬ v.isEmpty)
    | .text s => if s.trim.isEmpty then [] else [s.trim]
  if l.isEmpty then "Не указано" else String.intercalate ", " (l.take 3)

/-- The hard-coded per-channel structural guidance block appended to the
generation prompt (distinct for linkedin/twitter/telegram, empty
otherwise). -/
def channelGuidance (channel : String) : String :=
  if channel = "linkedin" then "- Длина: 1300-3000 символов. Хештеги 3-5."
  else if channel = "twitter" then "- Длина: до 280 символов. Хештеги 1-2."
  else if channel = "telegram" then "- Длина: 500-1500 символов. Неформальный стиль."
  else ""

/-- `AIContentAgent._build_generation_prompt` (`modules/content_agent.py`
lines 107-200), modelled by its interpolated dynamic parts (the elided
static instruction prose affects no verified property); the literal
segment `тему: "topic"` is kept because `_call_llm` pattern-searches it. -/
def build_generation_prompt (topic : String) (content_strategy : StrategySlice)
    (product_profile : ProductSlice) (insights : Option AudienceInsights)
    (format : ContentFormat) (channel : String) : String :=
  channel ++ "|" ++ product_profile.name ++ "|" ++ product_profile.value_proposition ++
    "|" ++ String.intercalate ", " product_profile.key_features ++
    "|" ++ promptField insights (fun i => i.main_pain) ++
    "|" ++ promptField insights (fun i => i.main_task) ++
    "|" ++ motivationsText insights ++
    "|" ++ (content_strategy.pillar.getD "") ++
    "|" ++ (content_strategy.funnel_stage.getD "") ++
    "|" ++ (content_strategy.tone_of_voice.getD "professional") ++
    "|" ++ String.intercalate ", " (content_strategy.key_messages.getD []) ++
    "|Создай " ++ format.value ++ " на тему: \"" ++ topic ++ "\"|" ++
    channelGuidance channel ++ "\n\nСоздай контент:"

/-- `AIContentAgent._call_llm` (`modules/content_agent.py` lines 202-240):
with a client, the completion is attempted and any exception becomes an
error text embedding the message and the extracted topic; without a
client, a canned explanatory message naming the topic. -/
def call_llm (env : GenEnv) (prompt : String) : String :=
  if env.has_client then
    match env.complete prompt with
    | .ok s => s.trim
    | .error e =>
      "Ошибка генерации контента: " ++ e ++ "\n\nТема: " ++
        extractPromptTopic prompt "Не указана"
  else
    "Привет! Это демо-контент на тему \"" ++ extractPromptTopic prompt "контент" ++
      "\". Для полноценной генерации контента необходимо настроить API ключ OpenAI."

/-- `AIContentAgent._extract_title` (`modules/content_agent.py` lines
242-280), modelled at string level (the regular expressions are modelled
with double-quote quoting): (a) an explicit labelled title; (b) the first
quoted span of 10-150 characters within the first 500; (c) the first of
the first five lines that, stripped of markdown markers and quotes, is
10-150 characters and not itself a label; (d) the topic, or the literal
fallback when the topic is empty. -/
def extract_title (content topic : String) : String :=
  let content_clean := content.trim
  let tier1 : Option String :=
    match content_clean.splitOn "**Заголовок:**" with
    | _ :: after :: _ =>
      let rest := after.trimLeft
      let rest := if rest.startsWith "\"" then rest.drop 1 else rest
      let t := (rest.takeWhile (fun c => c ≠ '"' ∧ c ≠ '\n')).trim
      if ¬ t.isEmpty ∧ t.length < 150 then some t else none
    | _ => none
  match tier1 with
  | some t => t
  | none =>
    let tier2 : Option String :=
      match ((content_clean.take 500).splitOn "\"").get? 1 with
      | some cand =>
        let t := cand.trim
        if 10 ≤ cand.length ∧ cand.length ≤ 150 ∧ ¬ containsSub cand "\n" ∧
            ¬ t.startsWith "Заголовок" then some t else none
      | none => none
    match tier2 with
    | some t => t
    | none =>
      let lines := (content_clean.splitOn "\n").take 5
      let clean := fun (line : String) =>
        let l := line.trim
        let l := (l.splitOn "**").foldl (fun a b => a ++ b) ""
        let l := l.dropWhile (fun c => c = '#')
        let l := l.trimLeft
        (l.splitOn "\"").foldl (fun a b => a ++ b) ""
      let ok := fun (l : String) =>
        ¬ l.isEmpty ∧ 10 < l.length ∧ l.length < 150 ∧
          ¬ (containsSub l.toLower "заголовок:" ∨ containsSub l.toLower "тема:" ∨
             containsSub l.toLower "title:")
      match (lines.map clean).find? (fun l => decide (ok l)) with
      | some l => l
      | none => if topic.isEmpty then "Без заголовка" else topic

/-- `AIContentAgent.generate_content` (`modules/content_agent.py` lines
59-105): builds the prompt, obtains text from `_call_llm` (total — every
model failure is converted to placeholder text inside `_call_llm`), mints
a fresh id from the time/uuid supplies, appends the piece to the history
and returns it. -/
def generate_content (env : GenEnv) (st : AIContentAgentState) (topic : String)
    (content_strategy : StrategySlice) (product_profile : ProductSlice)
    (insights : Option AudienceInsights) (format : ContentFormat) (channel : String) :
    ContentPiece × AIContentAgentState :=
  let prompt := build_generation_prompt topic content_strategy product_profile insights
    format channel
  let generated := call_llm env prompt
  let piece : ContentPiece :=
    { id := "content_" ++ (env.clock st.tick).stamp ++ "_" ++ env.uuid st.tick
      title := extract_title generated topic
      content := generated
      format := format
      pillar := content_strategy.pillar.getD ""
      funnel_stage := content_strategy.funnel_stage.getD ""
      channel := channel
      tone_of_voice := content_strategy.tone_of_voice.getD "professional"
      key_messages := content_strategy.key_messages.getD []
      status := .draft
      created_at := env.clock st.tick }
  (piece, { history := st.history ++ [piece], tick := st.tick + 1 })

/-! ## Orchestrator (`main.py`) -/

/-- A parsed hypothesis object (`generate_hypotheses` requests seven
fields; the demo fallback supplies four, leaving the list fields empty). -/
structure Hypothesis where
  name : String
  description : String
  characteristics : List String
  potential : String
  emotional_triggers : List String := []
  data_signals : List String := []
  risks : List String := []
deriving DecidableEq, Repr

/-- The per-level results dict stored in `deep_impact.hypotheses[level]`
(`main.py` lines 275-285): hypotheses plus the placeholder evaluation,
top-3 and final-choice slots (`final_choice` starts as `None`). -/
structure LevelResult where
  stage : String
  hypotheses : List Hypothesis
  evaluation : List (String × String) := []
  top_3 : List Hypothesis := []
  final_choice : Option String := none
deriving DecidableEq, Repr

/-- `ProductProfile` dataclass (`modules/product_intelligence.py`). -/
structure ProductProfile where
  name : String
  description : String
  category : String
  target_audience : String
  value_proposition : String
  key_features : List String
  pain_points_solved : List String
  competitive_advantages : List String
  tone_of_voice : String
  key_messages : List String
deriving DecidableEq, Repr

/-- Session state held by `ContentAIAgent` (`main.py` lines 27-48): the
product profile, the aggregated audience insights (`{}` before the
expansion step, hence `Option`), the active strategy, the framework's
per-level hypothesis store, the content agent's state and the analytics
metrics map. -/
structure ContentAIAgentState where
  product_profile : Option ProductProfile := none
  audience_insights : Option AudienceInsights := none
  strategy : Option ContentStrategy := none
  deep_impact_hypotheses : List (String × LevelResult) := []
  agent : AIContentAgentState := {}
  analytics_metrics : List (String × ContentMetrics) := []
  current_stage : String := "onboarding"

/-- The fixed level order of the audience-discovery sequence
(`main.py` lines 296 and 683). -/
def levels : List String := ["market", "niche", "audience", "segment", "pain", "task"]

/-- `ContentAIAgent._get_next_level` (`main.py` lines 681-690):
`levels.index(level)` raising `ValueError` for an unknown level is the
`none` branch of `findIdx?`; the terminal level returns `None`. -/
def get_next_level (level : String) : Option String :=
  match levels.findIdx? (fun l => l == level) with
  | none => none
  | some i => if i < levels.length - 1 then levels.get? (i + 1) else none

/-- The fixed demo fallback batch of `generate_hypotheses` (`main.py`
lines 246-272): ten generic placeholder hypotheses carrying the level
name. -/
def demo_hypotheses (level : String) : List Hypothesis :=
  (List.range 10).map (fun i =>
    { name := "Гипотеза " ++ toString (i + 1) ++ " для " ++ level
      description := "Описание гипотезы " ++ toString (i + 1)
      characteristics := ["Характеристика 1", "Характеристика 2"]
      potential := "Потенциал гипотезы" })

/-- Environment of `generate_hypotheses`: the per-level generation prompt
of the framework (`deep_impact.get_hypothesis_generation_prompts(level)
.get("generate")` — the framework module is consumed but its prompt text
does not influence any verified property), and the per-model completion
attempt composed with `_parse_hypotheses` (model identifier and
strict-JSON-mode flag to parsed list or exception). -/
structure HypEnv where
  prompts_generate : String → Option String
  attempt : String → Bool → Except String (List Hypothesis)

/-- The ordered candidate-model list of `generate_hypotheses`. -/
def models_to_try : List String := ["gpt-4o-mini", "gpt-4o", "gpt-3.5-turbo"]

/-- The model fallback chain of `generate_hypotheses` (`main.py` lines
193-238): per model, first the strict-JSON attempt, then the free-form
attempt; any exception advances to the next model; `none` models the
`RuntimeError` raised after the whole chain fails. -/
def tryModelChain (env : HypEnv) : List String → Option (List Hypothesis)
  | [] => none
  | m :: ms =>
    match env.attempt m true with
    | .ok hs => some hs
    | .error _ =>
      match env.attempt m false with
      | .ok hs => some hs
      | .error _ => tryModelChain env ms

/-- `ContentAIAgent.generate_hypotheses` (`main.py` lines 111-292):
with a configured client and a non-empty generation prompt, runs the
model chain, truncates more than 12 parsed hypotheses to 12, and falls
back to the demo batch when the whole chain fails; without a client the
demo batch is returned directly, consulting no model.  The results record
is stored under the level key, overwriting any prior result.  Returns
(results, updated state, next level). -/
def generate_hypotheses (env : HypEnv) (st : ContentAIAgentState) (level : String)
    (llm_client : Bool) : LevelResult × ContentAIAgentState × Option String :=
  let hyps :=
    if llm_client ∧ truthyStr (env.prompts_generate level) then
      match tryModelChain env models_to_try with
      | some hs => if hs.length > 12 then hs.take 12 else hs
      | none => demo_hypotheses level
    else demo_hypotheses level
  let results : LevelResult := { stage := level, hypotheses := hyps }
  let st' := { st with
    deep_impact_hypotheses := setEntry st.deep_impact_hypotheses level results }
  (results, st', get_next_level level)

/-- `self.deep_impact.hypotheses.get(level, {}).get("final_choice", "")`
(`main.py` lines 403-405): a missing level yields the default `""`; a
present level yields its `final_choice` value as-is — Python `None`
(`Option.none`) when no selection was ever made. -/
def finalChoiceField (store : List (String × LevelResult)) (level : String) : Option String :=
  match store.lookup level with
  | none => some ""
  | some r => r.final_choice

/-- A parsed expansion response from the gateway.  The parse is a bare
`json.loads` with no key validation, so beyond the six expected keys the
object may carry arbitrary further keys, all of which the
`**expansion_results` spread (`main.py` line 412) merges into the
aggregate dict.  The extra keys observable through the verified claims
are `main_pain`, `main_task` and `target_segment`: being spread after
the identically named fields of the dict literal, they override them
when present.  An override value is a JSON string or null (`Option
String`), the shapes the fields otherwise hold. -/
structure ExpansionRaw where
  expected : ExpansionResult
  main_pain_override : Option (Option String) := none
  main_task_override : Option (Option String) := none
  target_segment_override : Option (Option String) := none

/-- Environment of `expand_audience_insights`: the expansion completion
call composed with its single unvalidated JSON-parse attempt. -/
structure ExpandEnv where
  has_client : Bool
  expansion_resp : String → Except String ExpansionRaw

/-- Modelled from the spec: `DeepImpactFramework.process_stage("expansion",
input_data)` lives in `content_ai_agent/frameworks/deep_impact.py`, which
is not under `src/`.  Per spec §4.2 it is a local rule-based expansion
that deterministically derives the same field shape from the input
choices without calling the model. -/
def process_stage_expansion (segment pain task : Option LevelResult) : ExpansionResult :=
  let seg := ((segment.bind (fun r => r.final_choice)).getD "")
  let p := ((pain.bind (fun r => r.final_choice)).getD "")
  let t := ((task.bind (fun r => r.final_choice)).getD "")
  { motivations := .struct ("Решить: " ++ p) ("Рационально: " ++ t) ("Статус: " ++ seg)
    triggers := ["Обострение: " ++ p]
    language_patterns := { common_phrases := [p, t], style := "профессиональный" }
    expectations := { from_solution := "Решение: " ++ p, from_brand := "Поддержка" }
    aspirations := ["Достичь: " ++ t]
    fears := { barriers := ["Барьер: " ++ p] } }

/-- Dynamic part of the expansion prompt: the three selected choices
(`... .get("final_choice") or ""` coerces both a missing choice and `None`
to the empty string). -/
def expansionPrompt (segment pain task : Option LevelResult) : String :=
  ((segment.bind (fun r => r.final_choice)).getD "") ++ "|" ++
    ((pain.bind (fun r => r.final_choice)).getD "") ++ "|" ++
    ((task.bind (fun r => r.final_choice)).getD "")

/-- The `expansion_results` value of `expand_audience_insights`
(`main.py` lines 322-399): the gateway call parsed once when a client
exists, with the framework's rule-based expansion as the fallback on any
exception (the fallback is code-controlled and carries exactly the six
expected keys, hence no overrides). -/
def expansionResults (env : ExpandEnv) (st : ContentAIAgentState) : ExpansionRaw :=
  let segment_res := st.deep_impact_hypotheses.lookup "segment"
  let pain_res := st.deep_impact_hypotheses.lookup "pain"
  let task_res := st.deep_impact_hypotheses.lookup "task"
  if env.has_client then
    match env.expansion_resp (expansionPrompt segment_res pain_res task_res) with
    | .ok r => r
    | .error _ => { expected := process_stage_expansion segment_res pain_res task_res }
  else { expected := process_stage_expansion segment_res pain_res task_res }

/-- `ContentAIAgent.expand_audience_insights` (`main.py` lines 305-422):
one model call (when a client exists) parsed once, falling back to the
framework's rule-based expansion on any exception; then the aggregate
insight record is assembled as a dict literal — the named per-level
fields first, then every key of the expansion result spread over them,
so an expansion key named like one of the three per-level fields
overrides it.  Returns (insights, updated state). -/
def expand_audience_insights (env : ExpandEnv) (st : ContentAIAgentState) :
    AudienceInsights × ContentAIAgentState :=
  let expansion_results := expansionResults env st
  let insights : AudienceInsights :=
    { main_pain := expansion_results.main_pain_override.getD
        (finalChoiceField st.deep_impact_hypotheses "pain")
      main_task := expansion_results.main_task_override.getD
        (finalChoiceField st.deep_impact_hypotheses "task")
      target_segment := expansion_results.target_segment_override.getD
        (finalChoiceField st.deep_impact_hypotheses "segment")
      motivations := expansion_results.expected.motivations
      triggers := expansion_results.expected.triggers
      language_patterns := expansion_results.expected.language_patterns
      expectations := expansion_results.expected.expectations
      aspirations := expansion_results.expected.aspirations
      fears := expansion_results.expected.fears }
  (insights, { st with audience_insights := some insights,
                       current_stage := "strategy_generation" })

/-- Inner slot loop of phase one of `generate_content_batch` (`main.py`
lines 504-521): one piece per calendar slot, stopping at `count`
(`posts_generated` always equals the length of the accumulated batch). -/
def batchSlots (env : GenEnv) (strategy : ContentStrategy) (product : ProductSlice)
    (insights : Option AudienceInsights) (count : Nat) :
    List CalendarSlot → List ContentPiece → AIContentAgentState →
    List ContentPiece × AIContentAgentState
  | [], gen, ast => (gen, ast)
  | slot :: more, gen, ast =>
    if count ≤ gen.length then (gen, ast)
    else
      let sd : StrategySlice :=
        { pillar := some slot.pillar
          funnel_stage := some slot.funnel_stage
          tone_of_voice := some strategy.tone_of_voice
          key_messages := some strategy.key_messages }
      let r := generate_content env ast slot.topic sd product insights .post
        (strategy.channels.headD "linkedin")
      batchSlots env strategy product insights count more (gen ++ [r.1]) r.2

/-- Outer week loop of phase one of `generate_content_batch` (`main.py`
lines 500-524): first four calendar buckets, empty buckets skipped. -/
def batchFromCalendar (env : GenEnv) (strategy : ContentStrategy) (product : ProductSlice)
    (insights : Option AudienceInsights) (count : Nat) :
    List (String × List CalendarSlot) → List ContentPiece → AIContentAgentState →
    List ContentPiece × AIContentAgentState
  | [], gen, ast => (gen, ast)
  | (_, slots) :: rest, gen, ast =>
    if slots.isEmpty then batchFromCalendar env strategy product insights count rest gen ast
    else
      let r := batchSlots env strategy product insights count slots gen ast
      if count ≤ r.1.length then r
      else batchFromCalendar env strategy product insights count rest r.1 r.2

/-- The canned replacement body installed when a generated piece comes
back shorter than 10 characters (`main.py` line 568). -/
def emptyContentReplacement (topic pillar funnel_stage : String) : String :=
  "Контент на тему: " ++ topic ++ "\n\nЭтот пост посвящен " ++ pillar.toLower ++
    " для стадии " ++ funnel_stage ++
    ".\n\nПожалуйста, настройте API ключ OpenAI для полноценной генерации контента."

/-- Phase two of `generate_content_batch` (`main.py` lines 544-588): tops
up the batch from `posts_generated` to `count`, cycling topics, pillars,
funnel stages and channels by positional modulo; a piece whose stripped
body is shorter than 10 characters gets the canned replacement body (the
in-place mutation also reaches the history's copy of the piece).  The
surrounding per-item `try`/`except` of the source is dead in this model:
`generate_content` catches gateway failures internally and is total.
`fuel` is `count - i`. -/
def batchFill (env : GenEnv) (strategy : ContentStrategy) (product : ProductSlice)
    (insights : Option AudienceInsights)
    (pillars funnel_stages channels topics_list : List String) (pg : Nat) :
    Nat → Nat → List ContentPiece → AIContentAgentState →
    List ContentPiece × AIContentAgentState
  | 0, _, gen, ast => (gen, ast)
  | fuel + 1, i, gen, ast =>
    let topic := (topics_list.get? ((i - pg) % topics_list.length)).getD ""
    let pillar := (pillars.get? ((i - pg) % pillars.length)).getD ""
    let funnel_stage := (funnel_stages.get? ((i - pg) % funnel_stages.length)).getD ""
    let channel := (channels.get? ((i - pg) % channels.length)).getD ""
    let sd : StrategySlice :=
      { pillar := some pillar
        funnel_stage := some funnel_stage
        tone_of_voice := some strategy.tone_of_voice
        key_messages := some strategy.key_messages }
    let r := generate_content env ast topic sd product insights .post channel
    let piece := r.1
    let ast' := r.2
    let replaced := piece.content.trim.length < 10
    let piece := if replaced then
        { piece with content := emptyContentReplacement topic pillar funnel_stage }
      else piece
    let ast' := if replaced then
        { ast' with history := ast'.history.dropLast ++ [piece] }
      else ast'
    batchFill env strategy product insights pillars funnel_stages channels topics_list pg
      fuel (i + 1) (gen ++ [piece]) ast'

/-- The batch-construction body of `generate_content_batch` (`main.py`
lines 478-591), after the strategy and profile dereferences. -/
def batchCore (env : GenEnv) (strategy : ContentStrategy) (product : ProductSlice)
    (insights : Option AudienceInsights) (agent : AIContentAgentState) (count : Nat) :
    List ContentPiece × AIContentAgentState :=
  let phase1 :=
    if strategy.content_calendar.isEmpty then ([], agent)
    else batchFromCalendar env strategy product insights count
      (strategy.content_calendar.take 4) [] agent
  let pg := phase1.1.length
  let pillars := if strategy.content_pillars.isEmpty then
      ["Образовательный контент", "Решение проблем"]
    else strategy.content_pillars
  let funnel_stages := if strategy.content_funnel.isEmpty then
      ["awareness", "interest", "decision"]
    else strategy.content_funnel.map (fun e => e.1)
  let channels := if strategy.channels.isEmpty then ["linkedin"] else strategy.channels
  let topics0 := (pillars.map (fun p => funnel_stages.map (fun s => p ++ " - " ++ s))).flatten
  -- the generic numbered extension re-reads the growing list length,
  -- so the i-th extra topic is numbered pg + len + 2i + 1
  let topics_list := if topics0.length < count - pg then
      topics0 ++ (List.range (count - pg - topics0.length)).map
        (fun i => "Пост " ++ toString (pg + topics0.length + 2 * i + 1))
    else topics0
  let phase2 := batchFill env strategy product insights pillars
    funnel_stages channels topics_list pg (count - pg) pg phase1.1 phase1.2
  (phase2.1.take count, phase2.2)

/-- `ContentAIAgent.generate_content_batch` (`main.py` lines 465-591):
requires a strategy (raises otherwise) and dereferences the product
profile (an `AttributeError` when absent); drains the first four calendar
buckets up to `count` (`batchCore` phase one), then synthesises
pillar-by-funnel topics (extended with generic numbered topics when still
insufficient) for the shortfall (phase two), and finally truncates to
exactly `count` items. -/
def generate_content_batch (env : GenEnv) (st : ContentAIAgentState) (count : Nat) :
    Except String (List ContentPiece × ContentAIAgentState) :=
  match st.strategy with
  | none => .error "Strategy not set. Run generate_content_strategy first."
  | some strategy =>
    match st.product_profile with
    | none => .error "AttributeError: NoneType has no attribute name"
    | some profile =>
      let product : ProductSlice :=
        { name := profile.name
          value_proposition := profile.value_proposition
          key_features := profile.key_features }
      let r := batchCore env strategy product st.audience_insights st.agent count
      .ok (r.1, { st with agent := r.2 })

/-- Environment of `get_analytics_report`: `datetime.now()` and the
stream of `random.randint` draws (the n-th call to `randint(lo, hi)`
consumes the n-th raw value, folded into the inclusive range). -/
structure ReportEnv where
  now : DT
  rand : Nat → Nat

/-- `random.randint(lo, hi)` on the n-th draw of the stream. -/
def randint (env : ReportEnv) (n lo hi : Nat) : Int :=
  (lo + env.rand n % (hi - lo + 1) : Nat)

/-- The demo-metrics dict built for an untracked piece (`main.py` lines
657-664), consuming six consecutive random draws starting at `k`. -/
def demoMetricsData (env : ReportEnv) (k : Nat) : MetricsData :=
  { views := some (randint env k 50 500)
    likes := some (randint env (k + 1) 5 50)
    comments := some (randint env (k + 2) 0 10)
    shares := some (randint env (k + 3) 0 5)
    impressions := some (randint env (k + 4) 100 1000)
    reach := some (randint env (k + 5) 80 800) }

/-- The per-piece body of the mutation loop of `get_analytics_report`
(`main.py` lines 652-671): inject demo metrics when the piece has no
tracked metrics (which also mirrors the delta into the piece's own
metrics dict), then force an unpublished piece created inside the period
to published-at-creation. -/
def injectPiece (env : ReportEnv) (start_d end_d : DT) (c : ContentPiece)
    (mm : List (String × ContentMetrics)) (k : Nat) :
    ContentPiece × List (String × ContentMetrics) × Nat :=
  let step :=
    if (mm.lookup c.id).isNone then
      let r := track_content mm c (demoMetricsData env k)
      (r.2.2, r.2.1, k + 6)
    else (c, mm, k)
  let c1 := step.1
  let c2 :=
    if c1.published_at = none ∧ (start_d.leb c1.created_at ∧ c1.created_at.leb end_d) then
      { c1 with published_at := some c1.created_at, status := .published }
    else c1
  (c2, step.2)

/-- The mutation loop over the analyzed list, one `injectPiece` per
piece, threading the metrics map and draw counter. -/
def injectLoop (env : ReportEnv) (start_d end_d : DT) :
    List ContentPiece → List (String × ContentMetrics) → Nat →
    List ContentPiece × List (String × ContentMetrics) × Nat
  | [], mm, k => ([], mm, k)
  | c :: cs, mm, k =>
    let r := injectPiece env start_d end_d c mm k
    let rest := injectLoop env start_d end_d cs r.2.1 r.2.2
    (r.1 :: rest.1, rest.2)

/-- `ContentAIAgent.get_analytics_report` (`main.py` lines 627-679): the
period is the last `days` days ending now; the analyzed list is the given
one, or the agent's content history; the demo-metrics/publish mutation
loop runs over it in place before `generate_report`.  Returns (report,
updated session state, the analyzed pieces after mutation). -/
def get_analytics_report (env : ReportEnv) (st : ContentAIAgentState) (days : Nat)
    (content_list : Option (List ContentPiece)) :
    AnalyticsReport × ContentAIAgentState × List ContentPiece :=
  let end_date := env.now
  let start_date := env.now.addDays (-(days : Int))
  let analyzed := content_list.getD st.agent.history
  let r := injectLoop env start_date end_date analyzed st.analytics_metrics 0
  let analyzed' := r.1
  let mm' := r.2.1
  let report := generate_report mm' start_date end_date analyzed'
  let st' := { st with
    analytics_metrics := mm'
    agent := if content_list.isNone then { st.agent with history := analyzed' } else st.agent }
  (report, st', analyzed')

/-! ## Shared lemmas -/

/-- Looking a key up after a dict update sees the new value at the updated
key and is unchanged elsewhere. -/
theorem lookup_setEntry {α : Type} (m : List (String × α)) (k k' : String) (v : α) :
    (setEntry m k v).lookup k' = if k' == k then some v else m.lookup k' := by
  induction m with
  | nil => cases hb : (k' == k) <;> simp [setEntry, List.lookup, hb]
  | cons a m ih =>
    obtain ⟨ka, va⟩ := a
    by_cases hk : ka = k
    · subst hk
      simp only [setEntry, beq_self_eq_true, if_true, List.lookup]
      by_cases h2 : k' = ka
      · subst h2; simp
      · simp [h2, beq_eq_false_iff_ne.mpr h2]
    · simp only [setEntry, beq_eq_false_iff_ne.mpr hk, Bool.false_eq_true, if_false,
        List.lookup, ih]
      by_cases h2 : k' = ka
      · subst h2
        simp [beq_eq_false_iff_ne.mpr hk]
      · simp [beq_eq_false_iff_ne.mpr h2]

/-! ## Claim C8: the level walk -/

/-- Iterated application of `get_next_level` starting at `"market"`. -/
def iterLevels : Nat → Option String
  | 0 => some "market"
  | n + 1 => (iterLevels n).bind get_next_level

/-- C8: applying `nextLevel` repeatedly from `"market"` visits exactly
market, niche, audience, segment, pain, task — once each, in that order —
then signals termination; the terminal level and every unrecognized level
string map to `none`. -/
theorem C8_next_level_walk :
    (List.range 6).map iterLevels = levels.map some ∧
    iterLevels 6 = none ∧
    levels.Nodup ∧
    get_next_level "task" = none ∧
    ∀ s, s ∉ levels → get_next_level s = none := by
  refine ⟨by decide, by decide, by decide, by decide, ?_⟩
  intro s hs
  unfold get_next_level
  have hnone : levels.findIdx? (fun l => l == s) = none := by
    rw [List.findIdx?_eq_none_iff]
    intro x hx
    exact beq_eq_false_iff_ne.mpr (fun hxs => hs (hxs ▸ hx))
  rw [hnone]

/-- Witness for C8 at the concrete unrecognized level `"strategy"`. -/
theorem C8_next_level_walk_witness :
    "strategy" ∉ levels ∧ get_next_level "strategy" = none :=
  ⟨by decide, C8_next_level_walk.2.2.2.2 "strategy" (by decide)⟩

/-! ## Claims C6 and C7: hypothesis generation fallback and truncation -/

/-- The model chain yields nothing when every attempt of every model
raises. -/
theorem tryModelChain_eq_none (env : HypEnv)
    (henv : ∀ m mode, ∃ e, env.attempt m mode = Except.error e) (ms : List String) :
    tryModelChain env ms = none := by
  induction ms with
  | nil => rfl
  | cons m ms ih =>
    obtain ⟨e1, h1⟩ := henv m true
    obtain ⟨e2, h2⟩ := henv m false
    simp [tryModelChain, h1, h2, ih]

/-- C6: with no gateway configured — and likewise when every model of the
fallback chain fails — hypothesis generation returns exactly the fixed
batch of 10 placeholder hypotheses, each with a non-empty name carrying
the level name, a non-empty description, exactly 2 characteristic strings
and the generic potential statement; the no-gateway result is the fixed
batch regardless of the oracle, so no model is consulted. -/
theorem C6_fallback_batch (env : HypEnv) (st : ContentAIAgentState) (level : String)
    (llm_client : Bool)
    (h : llm_client = false ∨ ∀ m mode, ∃ e, env.attempt m mode = Except.error e) :
    (generate_hypotheses env st level llm_client).1.hypotheses = demo_hypotheses level ∧
    (generate_hypotheses env st level llm_client).1.hypotheses.length = 10 ∧
    ∀ hyp ∈ (generate_hypotheses env st level llm_client).1.hypotheses,
      0 < hyp.name.length ∧ (∃ pre, hyp.name = pre ++ level) ∧
      0 < hyp.description.length ∧ hyp.characteristics.length = 2 ∧
      hyp.potential = "Потенциал гипотезы" := by
  have hdemo : (generate_hypotheses env st level llm_client).1.hypotheses
      = demo_hypotheses level := by
    rcases h with h | h
    · subst h; rfl
    · unfold generate_hypotheses
      split
      · rw [tryModelChain_eq_none env h models_to_try]
      · rfl
  refine ⟨hdemo, by rw [hdemo]; rfl, ?_⟩
  rw [hdemo]
  intro hyp hmem
  simp only [demo_hypotheses, List.mem_map, List.mem_range] at hmem
  obtain ⟨i, hi, rfl⟩ := hmem
  refine ⟨?_, ⟨"Гипотеза " ++ toString (i + 1) ++ " для ", rfl⟩, ?_, rfl, rfl⟩
  · have h9 : 0 < ("Гипотеза " : String).length := by decide
    simp only [String.length_append]
    omega
  · have h9 : 0 < ("Описание гипотезы " : String).length := by decide
    simp only [String.length_append]
    omega

/-- Witness for C6 with no gateway configured, at the `"pain"` level. -/
theorem C6_fallback_batch_witness :
    (generate_hypotheses ⟨fun _ => none, fun _ _ => Except.error "down"⟩ {} "pain"
      false).1.hypotheses.length = 10 :=
  (C6_fallback_batch ⟨fun _ => none, fun _ _ => Except.error "down"⟩ {} "pain" false
    (Or.inl rfl)).2.1

/-- C7: when the model chain succeeds with more than 12 parsed hypothesis
items, the returned list is the first 12 in model order, and the stored
level result carries the same truncated list. -/
theorem C7_truncate_to_twelve (env : HypEnv) (st : ContentAIAgentState) (level : String)
    (hs : List Hypothesis)
    (hprompt : truthyStr (env.prompts_generate level) = true)
    (hchain : tryModelChain env models_to_try = some hs)
    (hlen : 12 < hs.length) :
    (generate_hypotheses env st level true).1.hypotheses = hs.take 12 ∧
    (generate_hypotheses env st level true).1.hypotheses.length = 12 ∧
    (generate_hypotheses env st level true).2.1.deep_impact_hypotheses.lookup level =
      some (generate_hypotheses env st level true).1 := by
  have hres : (generate_hypotheses env st level true).1.hypotheses = hs.take 12 := by
    unfold generate_hypotheses
    rw [if_pos ⟨rfl, hprompt⟩, hchain]
    simp [hlen]
  refine ⟨hres, ?_, ?_⟩
  · rw [hres, List.length_take]
    omega
  · unfold generate_hypotheses
    rw [lookup_setEntry, if_pos (beq_self_eq_true level)]

/-- A sample parsed hypothesis for the C7 witness oracle. -/
def c7hyp : Hypothesis :=
  { name := "n", description := "d", characteristics := [], potential := "p" }

/-- A sample oracle whose first attempt parses 13 hypotheses. -/
def c7env : HypEnv :=
  ⟨fun _ => some "prompt", fun _ _ => Except.ok (List.replicate 13 c7hyp)⟩

/-- Witness for C7: an oracle whose first attempt parses 13 hypotheses. -/
theorem C7_truncate_to_twelve_witness :
    (generate_hypotheses c7env {} "market" true).1.hypotheses.length = 12 :=
  (C7_truncate_to_twelve c7env {} "market" (List.replicate 13 c7hyp)
    rfl rfl (by decide)).2.1

/-! ## Claim C2: the aggregated insight fields -/

/-- The state after generating `"pain"`-level hypotheses with no gateway:
the level is present in the store with `final_choice = None` (no selection
was made yet). -/
def c2state : ContentAIAgentState :=
  (generate_hypotheses ⟨fun _ => none, fun _ _ => Except.error "down"⟩ {} "pain"
    false).2.1

/-- Counterexample to C2 as stated: after generating hypotheses for the
`"pain"` level without selecting one (the level is present but
incomplete), the aggregated `main_pain` field is the null value `None`,
not the empty string the claim requires. -/
theorem C2_counterexample :
    (expand_audience_insights ⟨false, fun _ => Except.error "down"⟩ c2state).1.main_pain
        = none ∧
    c2state.deep_impact_hypotheses.lookup "pain" ≠ none ∧
    (none : Option String) ≠ some "" := by
  refine ⟨rfl, ?_, by decide⟩
  intro h
  simp [c2state, generate_hypotheses, lookup_setEntry] at h

/-- C2 as amended: provided the gateway's parsed expansion object does
not itself carry the like-named key (in particular on the no-client and
fallback paths), `main_pain`, `main_task` and `target_segment` each
equal the `final_choice` value of the corresponding level result — the
empty string exactly when the level is absent from the store (skipped),
and the null value `None` (not the empty string) when the level is
present without a final choice; when the unvalidated parsed expansion
does carry such a key, the `**expansion_results` spread overrides the
field with the gateway's value. -/
theorem C2_insight_fields (env : ExpandEnv) (st : ContentAIAgentState) :
    ((expansionResults env st).main_pain_override = none →
      (st.deep_impact_hypotheses.lookup "pain" = none →
        (expand_audience_insights env st).1.main_pain = some "") ∧
      ∀ lr, st.deep_impact_hypotheses.lookup "pain" = some lr →
        (expand_audience_insights env st).1.main_pain = lr.final_choice) ∧
    (∀ v, (expansionResults env st).main_pain_override = some v →
      (expand_audience_insights env st).1.main_pain = v) ∧
    ((expansionResults env st).main_task_override = none →
      (st.deep_impact_hypotheses.lookup "task" = none →
        (expand_audience_insights env st).1.main_task = some "") ∧
      ∀ lr, st.deep_impact_hypotheses.lookup "task" = some lr →
        (expand_audience_insights env st).1.main_task = lr.final_choice) ∧
    (∀ v, (expansionResults env st).main_task_override = some v →
      (expand_audience_insights env st).1.main_task = v) ∧
    ((expansionResults env st).target_segment_override = none →
      (st.deep_impact_hypotheses.lookup "segment" = none →
        (expand_audience_insights env st).1.target_segment = some "") ∧
      ∀ lr, st.deep_impact_hypotheses.lookup "segment" = some lr →
        (expand_audience_insights env st).1.target_segment = lr.final_choice) ∧
    (∀ v, (expansionResults env st).target_segment_override = some v →
      (expand_audience_insights env st).1.target_segment = v) := by
  refine ⟨?_, ?_, ?_, ?_, ?_, ?_⟩
  · intro hov
    refine ⟨?_, ?_⟩
    · intro h
      simp [expand_audience_insights, finalChoiceField, h, hov]
    · intro lr h
      simp [expand_audience_insights, finalChoiceField, h, hov]
  · intro v hov
    simp [expand_audience_insights, hov]
  · intro hov
    refine ⟨?_, ?_⟩
    · intro h
      simp [expand_audience_insights, finalChoiceField, h, hov]
    · intro lr h
      simp [expand_audience_insights, finalChoiceField, h, hov]
  · intro v hov
    simp [expand_audience_insights, hov]
  · intro hov
    refine ⟨?_, ?_⟩
    · intro h
      simp [expand_audience_insights, finalChoiceField, h, hov]
    · intro lr h
      simp [expand_audience_insights, finalChoiceField, h, hov]
  · intro v hov
    simp [expand_audience_insights, hov]

/-- Witness for C2 (amended), exercising both clauses: with no client
the fallback expansion carries no override keys and the skipped level
yields the empty string; with a gateway whose parsed object carries a
`main_pain` key, the spread overrides the field with the gateway's
value. -/
theorem C2_insight_fields_witness :
    (expand_audience_insights ⟨false, fun _ => Except.error "down"⟩ {}).1.main_pain
        = some "" ∧
    (expand_audience_insights
        ⟨true, fun _ => Except.ok
          { expected := process_stage_expansion none none none
            main_pain_override := some (some "clobbered") }⟩ {}).1.main_pain
        = some "clobbered" :=
  ⟨((C2_insight_fields ⟨false, fun _ => Except.error "down"⟩ {}).1 rfl).1 rfl,
   (C2_insight_fields
      ⟨true, fun _ => Except.ok
        { expected := process_stage_expansion none none none
          main_pain_override := some (some "clobbered") }⟩ {}).2.1
      (some "clobbered") rfl⟩

/-! ## Claim C3: the engagement rate -/

/-- A minimal piece for the C3 counterexample. -/
def c3piece : ContentPiece :=
  { id := "c3", title := "t", content := "body", format := .post, pillar := "p"
    funnel_stage := "aw", channel := "linkedin", tone_of_voice := "pro"
    key_messages := [], status := .draft, created_at := ⟨0, 0, 0⟩ }

/-- Counterexample to C3 as stated: an update with positive impressions
computes rate 50; a second update overwriting impressions to 0 leaves the
stale rate 50 in place — the rate is not 0 although impressions is 0. -/
theorem C3_counterexample :
    ((track_content
        (track_content [] c3piece
          { impressions := some 10, likes := some 5 }).2.1
        (track_content [] c3piece
          { impressions := some 10, likes := some 5 }).2.2
        { impressions := some 0 }).1.impressions = 0) ∧
    ((track_content
        (track_content [] c3piece
          { impressions := some 10, likes := some 5 }).2.1
        (track_content [] c3piece
          { impressions := some 10, likes := some 5 }).2.2
        { impressions := some 0 }).1.engagement_rate = 50) ∧
    (50 : ℚ) ≠ 0 := by
  refine ⟨by decide, ?_, by norm_num⟩
  norm_num [track_content, ContentMetrics.calculate_engagement_rate, applyMetricsData,
    setEntry, List.lookup, c3piece]

/-- C3 as amended: after every `track_content` update, a record with
positive impressions carries rate (likes+comments+shares)/impressions×100,
recomputed from the freshly updated fields; a record whose impressions is
not positive keeps its prior stored rate — which is 0 for a piece tracked
for the first time, but may be a stale non-zero value when a previous
update had positive impressions. -/
theorem C3_engagement_rate (mm : List (String × ContentMetrics)) (c : ContentPiece)
    (d : MetricsData) :
    (0 < (track_content mm c d).1.impressions →
      (track_content mm c d).1.engagement_rate =
        (((track_content mm c d).1.likes + (track_content mm c d).1.comments +
            (track_content mm c d).1.shares : ℚ) /
          ((track_content mm c d).1.impressions : ℚ)) * 100) ∧
    (¬ 0 < (track_content mm c d).1.impressions →
      (track_content mm c d).1.engagement_rate =
        ((mm.lookup c.id).getD { content_id := c.id }).engagement_rate) ∧
    (mm.lookup c.id = none → ¬ 0 < (track_content mm c d).1.impressions →
      (track_content mm c d).1.engagement_rate = 0) := by
  have key : ∀ m : ContentMetrics,
      (0 < m.calculate_engagement_rate.impressions →
        m.calculate_engagement_rate.engagement_rate =
          ((m.calculate_engagement_rate.likes + m.calculate_engagement_rate.comments +
              m.calculate_engagement_rate.shares : ℚ) /
            (m.calculate_engagement_rate.impressions : ℚ)) * 100) ∧
      (¬ 0 < m.calculate_engagement_rate.impressions →
        m.calculate_engagement_rate.engagement_rate = m.engagement_rate) := by
    intro m
    unfold ContentMetrics.calculate_engagement_rate
    by_cases h : 0 < m.impressions
    · simp [h]
    · simp [h]
  have h1 := key (applyMetricsData ((mm.lookup c.id).getD { content_id := c.id }) d)
  refine ⟨fun hpos => h1.1 hpos, fun hneg => h1.2 hneg, fun hnone hneg => ?_⟩
  have h4 : (applyMetricsData ((mm.lookup c.id).getD { content_id := c.id }) d).engagement_rate
      = ((mm.lookup c.id).getD ({ content_id := c.id } : ContentMetrics)).engagement_rate := rfl
  have h3 : ((mm.lookup c.id).getD ({ content_id := c.id } : ContentMetrics)).engagement_rate
      = 0 := by rw [hnone]; rfl
  exact (h1.2 hneg).trans (h4.trans h3)

/-- Witness for C3 (amended) at a concrete positive-impressions update. -/
theorem C3_engagement_rate_witness :
    0 < (track_content [] c3piece { impressions := some 10, likes := some 5 }).1.impressions ∧
    (track_content [] c3piece
      { impressions := some 10, likes := some 5 }).1.engagement_rate =
      (((track_content [] c3piece { impressions := some 10, likes := some 5 }).1.likes +
          (track_content [] c3piece { impressions := some 10, likes := some 5 }).1.comments +
          (track_content [] c3piece { impressions := some 10, likes := some 5 }).1.shares : ℚ) /
        ((track_content [] c3piece
          { impressions := some 10, likes := some 5 }).1.impressions : ℚ)) * 100 :=
  ⟨by decide,
   (C3_engagement_rate [] c3piece { impressions := some 10, likes := some 5 }).1 (by decide)⟩

/-! ## Claim C9: determinism of the strategy fallback paths -/

/-- With a failing pillar oracle (or no client), the pillar list is the
fixed fallback. -/
theorem generate_content_pillars_fallback (env : StrategyEnv)
    (product : List (String × String)) (insights : AudienceInsights)
    (hfail : ∀ p r, env.pillars_resp p ≠ Except.ok r) :
    generate_content_pillars env product insights =
      ["Решение главной боли", "Достижение целей и стремлений",
       "Преодоление страхов и барьеров", "Образование и инсайты",
       "Социальное доказательство", "Трансформация и результаты"] := by
  unfold generate_content_pillars
  cases env.has_client
  · rfl
  · simp only [if_true]
    rcases hr : env.pillars_resp (pillarsPrompt product insights) with e | r
    · rfl
    · exact absurd hr (hfail _ _)

/-- The date-free shape of the generated calendar does not depend on the
call time. -/
theorem calendarShape_time_independent (pillars : List String)
    (funnel : List (String × List String)) (now1 now2 : DT) :
    calendarShape (generate_content_calendar pillars funnel now1) =
      calendarShape (generate_content_calendar pillars funnel now2) := by
  simp [calendarShape, generate_content_calendar, slotShape]

/-- C9: two strategy-synthesis calls with identical product profile,
audience insights and business goals, each with a gateway configured to
always fail, produce identical fallback pillar lists and funnel maps; the
calendars have identical date-free structure, and are byte-identical when
the two calls share the same start time — the fallback paths contain no
randomness or time-of-call dependence beyond the calendar start date. -/
theorem C9_strategy_fallback_deterministic (env1 env2 : StrategyEnv) (now1 now2 : DT)
    (product : List (String × String)) (insights : AudienceInsights)
    (goals : List String)
    (hf1 : ∀ p r, env1.pillars_resp p ≠ Except.ok r)
    (hf2 : ∀ p r, env2.pillars_resp p ≠ Except.ok r) :
    (generate_strategy env1 now1 product insights goals).content_pillars =
      (generate_strategy env2 now2 product insights goals).content_pillars ∧
    (generate_strategy env1 now1 product insights goals).content_funnel =
      (generate_strategy env2 now2 product insights goals).content_funnel ∧
    calendarShape (generate_strategy env1 now1 product insights goals).content_calendar =
      calendarShape (generate_strategy env2 now2 product insights goals).content_calendar ∧
    (now1 = now2 →
      (generate_strategy env1 now1 product insights goals).content_calendar =
        (generate_strategy env2 now2 product insights goals).content_calendar) := by
  have hp1 := generate_content_pillars_fallback env1 product insights hf1
  have hp2 := generate_content_pillars_fallback env2 product insights hf2
  have hpillars : generate_content_pillars env1 product insights =
      generate_content_pillars env2 product insights := hp1.trans hp2.symm
  refine ⟨?_, rfl, ?_, ?_⟩
  · simpa [generate_strategy] using hpillars
  · simp only [generate_strategy]
    rw [hpillars]
    exact calendarShape_time_independent _ _ now1 now2
  · intro hnow
    subst hnow
    simp only [generate_strategy]
    rw [hpillars]

/-- Witness for C9 at two concrete failing gateways and distinct call
times. -/
theorem C9_strategy_fallback_deterministic_witness :
    (generate_strategy ⟨true, fun _ => Except.error "quota", fun _ => Except.error "quota"⟩
        ⟨0, 9, 0⟩ [] {} []).content_pillars =
      (generate_strategy ⟨true, fun _ => Except.error "auth", fun _ => Except.error "auth"⟩
        ⟨7, 9, 0⟩ [] {} []).content_pillars :=
  (C9_strategy_fallback_deterministic
    ⟨true, fun _ => Except.error "quota", fun _ => Except.error "quota"⟩
    ⟨true, fun _ => Except.error "auth", fun _ => Except.error "auth"⟩
    ⟨0, 9, 0⟩ ⟨7, 9, 0⟩ [] {} []
    (fun _ _ h => Except.noConfusion h) (fun _ _ h => Except.noConfusion h)).1

/-! ## Claim C5: batch generation always returns exactly `count` items -/

/-- The slot loop never grows the batch beyond `count`. -/
theorem batchSlots_length_le (env : GenEnv) (strategy : ContentStrategy)
    (product : ProductSlice) (insights : Option AudienceInsights) (count : Nat) :
    ∀ (slots : List CalendarSlot) (gen : List ContentPiece) (ast : AIContentAgentState),
      gen.length ≤ count →
      (batchSlots env strategy product insights count slots gen ast).1.length ≤ count := by
  intro slots
  induction slots with
  | nil => intro gen ast h; exact h
  | cons slot more ih =>
    intro gen ast h
    unfold batchSlots
    by_cases hc : count ≤ gen.length
    · simp only [hc, if_true]
      exact h
    · simp only [hc, if_false]
      apply ih
      simp only [List.length_append, List.length_cons, List.length_nil]
      omega

/-- The calendar phase never grows the batch beyond `count`. -/
theorem batchFromCalendar_length_le (env : GenEnv) (strategy : ContentStrategy)
    (product : ProductSlice) (insights : Option AudienceInsights) (count : Nat) :
    ∀ (cal : List (String × List CalendarSlot)) (gen : List ContentPiece)
      (ast : AIContentAgentState), gen.length ≤ count →
      (batchFromCalendar env strategy product insights count cal gen ast).1.length ≤ count := by
  intro cal
  induction cal with
  | nil => intro gen ast h; exact h
  | cons wk rest ih =>
    intro gen ast h
    obtain ⟨k, slots⟩ := wk
    unfold batchFromCalendar
    by_cases hempty : slots.isEmpty
    · simp only [hempty, if_true]
      exact ih gen ast h
    · simp only [hempty, if_false]
      have hs := batchSlots_length_le env strategy product insights count slots gen ast h
      by_cases hstop :
          count ≤ (batchSlots env strategy product insights count slots gen ast).1.length
      · simp only [hstop, if_true]
        exact hs
      · simp only [hstop, if_false]
        exact ih _ _ hs

/-- The top-up phase adds exactly `fuel` pieces. -/
theorem batchFill_length (env : GenEnv) (strategy : ContentStrategy)
    (product : ProductSlice) (insights : Option AudienceInsights)
    (pillars funnel_stages channels topics_list : List String) (pg : Nat) :
    ∀ (fuel i : Nat) (gen : List ContentPiece) (ast : AIContentAgentState),
      (batchFill env strategy product insights pillars funnel_stages channels topics_list
        pg fuel i gen ast).1.length = gen.length + fuel := by
  intro fuel
  induction fuel with
  | zero => intro i gen ast; rfl
  | succ f ih =>
    intro i gen ast
    unfold batchFill
    rw [ih]
    simp only [List.length_append, List.length_cons, List.length_nil]
    omega

/-- The batch body produces exactly `count` pieces. -/
theorem batchCore_length (env : GenEnv) (strategy : ContentStrategy)
    (product : ProductSlice) (insights : Option AudienceInsights)
    (agent : AIContentAgentState) (count : Nat) :
    (batchCore env strategy product insights agent count).1.length = count := by
  unfold batchCore
  rw [List.length_take, batchFill_length]
  have hpg : (if strategy.content_calendar.isEmpty then ([], agent)
      else batchFromCalendar env strategy product insights count
        (strategy.content_calendar.take 4) [] agent).1.length ≤ count := by
    by_cases hc : strategy.content_calendar.isEmpty
    · simp [hc]
    · simp only [hc, if_false]
      exact batchFromCalendar_length_le env strategy product insights count _ [] agent
        (by simp)
  omega

/-- C5: with a strategy in place (whence also a product profile, as the
orchestrator's flow guarantees), `generate_content_batch` succeeds and
returns a list of exactly `count` content pieces — for every gateway
oracle, including one on which every completion call fails (each failed
call yields an error-placeholder piece inside `generate_content` instead
of aborting the batch), and with any surplus truncated to `count`. -/
theorem C5_batch_exact_count (env : GenEnv) (st : ContentAIAgentState) (count : Nat)
    (strategy : ContentStrategy) (profile : ProductProfile)
    (hs : st.strategy = some strategy) (hp : st.product_profile = some profile) :
    ∃ pr, generate_content_batch env st count = Except.ok pr ∧ pr.1.length = count := by
  refine ⟨((batchCore env strategy
      { name := profile.name, value_proposition := profile.value_proposition,
        key_features := profile.key_features } st.audience_insights st.agent count).1,
      { st with agent := (batchCore env strategy
        { name := profile.name, value_proposition := profile.value_proposition,
          key_features := profile.key_features } st.audience_insights st.agent count).2 }),
    ?_, ?_⟩
  · unfold generate_content_batch
    rw [hs, hp]
  · exact batchCore_length env strategy _ st.audience_insights st.agent count

/-- A minimal strategy for the C5 witness. -/
def c5strategy : ContentStrategy :=
  { target_audience := {}
    content_pillars := ["Образование"]
    content_funnel := [("awareness", [])]
    content_calendar := []
    tone_of_voice := "friendly_professional"
    key_messages := []
    channels := ["linkedin"]
    posting_schedule := [] }

/-- A minimal product profile for the C5 witness. -/
def c5profile : ProductProfile :=
  { name := "Acme", description := "d", category := "saas", target_audience := "b2b"
    value_proposition := "v", key_features := ["X", "Y"], pain_points_solved := []
    competitive_advantages := [], tone_of_voice := "pro", key_messages := [] }

/-- Witness for C5: a gateway on which every call fails, a strategy with
an empty calendar, and a requested count of 3. -/
theorem C5_batch_exact_count_witness :
    ∃ pr, generate_content_batch
        ⟨true, fun _ => Except.error "api down", fun _ => ⟨0, 0, 0⟩, fun _ => "u"⟩
        { strategy := some c5strategy, product_profile := some c5profile } 3 =
      Except.ok pr ∧ pr.1.length = 3 :=
  C5_batch_exact_count
    ⟨true, fun _ => Except.error "api down", fun _ => ⟨0, 0, 0⟩, fun _ => "u"⟩
    { strategy := some c5strategy, product_profile := some c5profile } 3
    c5strategy c5profile rfl rfl

/-! ## Claim C1: the scheduler's piece cursor -/

/-- Invariant of the weekday loop: the accumulated posts carry, in order,
exactly the first `idx` pieces. -/
theorem scheduleDays_front_segment (channel : String) (times : List String)
    (pieces : List ContentPiece) (ptw : Nat) :
    ∀ (fuel day : Nat) (d : DT) (idx : Nat) (acc : List ScheduledPost),
      acc.map (fun p => p.content) = pieces.take idx → acc.length = idx →
      (scheduleDays channel times pieces ptw fuel day d idx acc).2.2.map
          (fun p => p.content) =
        pieces.take (scheduleDays channel times pieces ptw fuel day d idx acc).2.1 ∧
      (scheduleDays channel times pieces ptw fuel day d idx acc).2.2.length =
        (scheduleDays channel times pieces ptw fuel day d idx acc).2.1 := by
  intro fuel
  induction fuel with
  | zero => intro day d idx acc h1 h2; exact ⟨h1, h2⟩
  | succ f ih =>
    intro day d idx acc h1 h2
    unfold scheduleDays
    by_cases hlen : pieces.length ≤ idx
    · simp only [hlen, if_true]
      exact ⟨h1, h2⟩
    · simp only [hlen, if_false]
      by_cases hday : day < ptw
      · simp only [hday, if_true]
        have hidx : idx < pieces.length := by omega
        rw [List.get?_eq_get hidx]
        apply ih
        · rw [List.map_append, h1, List.take_succ]
          simp [List.getElem?_eq_getElem hidx, List.get_eq_getElem]
        · simp only [List.length_append, List.length_cons, List.length_nil]
          omega
      · simp only [hday, if_false]
        exact ih _ _ _ _ h1 h2

/-- Invariant of the week loop: same prefix property, propagated through
all four weeks. -/
theorem scheduleWeeks_front_segment (channel : String) (times : List String)
    (pieces : List ContentPiece) (ppw : Nat) :
    ∀ (w : Nat) (d : DT) (idx : Nat) (acc : List ScheduledPost),
      acc.map (fun p => p.content) = pieces.take idx → acc.length = idx →
      (scheduleWeeks channel times pieces ppw w d idx acc).2.2.map
          (fun p => p.content) =
        pieces.take (scheduleWeeks channel times pieces ppw w d idx acc).2.1 ∧
      (scheduleWeeks channel times pieces ppw w d idx acc).2.2.length =
        (scheduleWeeks channel times pieces ppw w d idx acc).2.1 := by
  intro w
  induction w with
  | zero => intro d idx acc h1 h2; exact ⟨h1, h2⟩
  | succ w ih =>
    intro d idx acc h1 h2
    unfold scheduleWeeks
    have hd := scheduleDays_front_segment channel times pieces
      (min ppw (pieces.length - idx)) 5 0 d idx acc h1 h2
    exact ih _ _ _ hd.1 hd.2

/-- Each channel's scheduled posts carry, in order, a prefix of the input
piece list. -/
theorem scheduleChannel_front_segment (pieces : List ContentPiece) (start : DT) (ppw : Nat)
    (channel : String) :
    (scheduleChannel pieces start ppw channel).map (fun p => p.content) =
      pieces.take (scheduleChannel pieces start ppw channel).length := by
  have h := scheduleWeeks_front_segment channel (optimalTimes channel) pieces ppw 4 start 0 []
    (by simp) rfl
  unfold scheduleChannel
  rw [h.2]
  exact h.1

/-- Every entry of the schedule dict is the per-channel schedule of its
key (the cursor restarts at zero for each channel). -/
theorem create_schedule_lookup (pieces : List ContentPiece) (start : DT) (ppw : Nat) :
    ∀ (channels : List String) (m : List (String × List ScheduledPost)),
      (∀ k v, m.lookup k = some v → v = scheduleChannel pieces start ppw k) →
      ∀ ch posts,
        (channels.foldl
          (fun m ch => setEntry m ch (scheduleChannel pieces start ppw ch)) m).lookup ch =
            some posts →
        posts = scheduleChannel pieces start ppw ch := by
  intro channels
  induction channels with
  | nil => intro m hm ch posts h; exact hm ch posts h
  | cons c cs ih =>
    intro m hm ch posts h
    refine ih _ ?_ ch posts h
    intro k v hk
    rw [lookup_setEntry] at hk
    by_cases hkc : k = c
    · subst hkc
      rw [if_pos (beq_self_eq_true k)] at hk
      exact (Option.some.injEq _ _ ▸ hk).symm
    · rw [if_neg (by simp [hkc])] at hk
      exact hm k v hk

/-- A content piece for the C1 scheduler scenario. -/
def c1piece : ContentPiece :=
  { id := "p0", title := "t", content := "body", format := .post, pillar := "edu"
    funnel_stage := "awareness", channel := "", tone_of_voice := "pro"
    key_messages := [], status := .approved, created_at := ⟨0, 0, 0⟩ }

/-- The single-piece input list of the C1 scenario. -/
def c1pieces : List ContentPiece := [c1piece]

/-- A Monday-morning start date for the C1 scenario. -/
def c1start : DT := ⟨0, 9, 0⟩

/-- Counterexample to C1 as stated: the `content_index` cursor is
re-initialised to zero inside the channel loop, so it is not shared
across channels — with one input piece and two channels, two scheduled
posts are created (exceeding the input count) and the same piece appears
in both channels' lists. -/
theorem C1_counterexample :
    c1pieces.length = 1 ∧
    totalScheduled (create_schedule c1pieces c1start ["linkedin", "twitter"] 5) = 2 ∧
    (((create_schedule c1pieces c1start ["linkedin", "twitter"] 5).lookup
        "linkedin").getD []).map (fun p => p.content) = c1pieces ∧
    (((create_schedule c1pieces c1start ["linkedin", "twitter"] 5).lookup
        "twitter").getD []).map (fun p => p.content) = c1pieces := by
  refine ⟨rfl, by decide, by decide, by decide⟩

/-- C1 as amended: the pieces cursor is per-channel, not shared — each
channel independently schedules, in order, a prefix of the input piece
list.  Hence within one channel no piece is duplicated and the
per-channel count never exceeds the input count, but pieces are
duplicated across channels and the total over all channels can exceed the
number of input pieces. -/
theorem C1_channel_cursor (pieces : List ContentPiece) (start : DT)
    (channels : List String) (ppw : Nat) (ch : String) (posts : List ScheduledPost)
    (h : (create_schedule pieces start channels ppw).lookup ch = some posts) :
    posts.map (fun p => p.content) = pieces.take posts.length ∧
    posts.length ≤ pieces.length := by
  have hposts : posts = scheduleChannel pieces start ppw ch := by
    refine create_schedule_lookup pieces start ppw channels [] ?_ ch posts h
    intro k v hk
    simp [List.lookup] at hk
  subst hposts
  refine ⟨scheduleChannel_front_segment pieces start ppw ch, ?_⟩
  have hlen := congrArg List.length (scheduleChannel_front_segment pieces start ppw ch)
  rw [List.length_map, List.length_take] at hlen
  omega

/-- Witness for C1 (amended) on the two-channel one-piece scenario. -/
theorem C1_channel_cursor_witness :
    ∃ posts, (create_schedule c1pieces c1start ["linkedin", "twitter"] 5).lookup
        "linkedin" = some posts ∧
      posts.map (fun p => p.content) = c1pieces.take posts.length :=
  ⟨scheduleChannel c1pieces c1start 5 "linkedin", by rfl,
   (C1_channel_cursor c1pieces c1start ["linkedin", "twitter"] 5 "linkedin"
     (scheduleChannel c1pieces c1start 5 "linkedin") (by rfl)).1⟩

/-! ## Claim C4: per-group performance in the analytics report -/

/-- Lookup through a key-preserving map over an association list. -/
theorem lookup_map_keyfix {α β : Type} (g : String → α → β) :
    ∀ (m : List (String × α)) (k : String),
      (m.map (fun e => (e.1, g e.1 e.2))).lookup k = (m.lookup k).map (g k) := by
  intro m
  induction m with
  | nil => intro k; rfl
  | cons a m ih =>
    intro k
    obtain ⟨ka, va⟩ := a
    simp only [List.map_cons, List.lookup]
    by_cases hk : k = ka
    · subst hk; simp
    · simp [beq_eq_false_iff_ne.mpr hk, ih]

/-- Characterisation of the group-accumulation loops: the entry at a key
is the fold of the bump over exactly the pieces carrying that key,
started from the prior entry (or the default when the key is fresh, in
which case the entry exists only if some piece carries the key). -/
theorem accumGroups_lookup {α : Type} (key : ContentPiece → String) (dflt : α)
    (bump : α → ContentPiece → α) :
    ∀ (cs : List ContentPiece) (m : List (String × α)) (k : String),
      (accumGroups key dflt bump m cs).lookup k =
        match m.lookup k with
        | some cur => some ((cs.filter (fun c => key c == k)).foldl bump cur)
        | none =>
          if (cs.filter (fun c => key c == k)).isEmpty then none
          else some ((cs.filter (fun c => key c == k)).foldl bump dflt) := by
  intro cs
  induction cs with
  | nil =>
    intro m k
    cases hm : m.lookup k <;> simp [accumGroups, hm]
  | cons c cs ih =>
    intro m k
    rw [show accumGroups key dflt bump m (c :: cs) =
        accumGroups key dflt bump
          (setEntry m (key c) (bump ((m.lookup (key c)).getD dflt) c)) cs from rfl]
    rw [ih, lookup_setEntry]
    by_cases hk : k = key c
    · have hbeq : (key c == k) = true := by simp [hk]
      have hfil : (c :: cs).filter (fun x => key x == k) =
          c :: cs.filter (fun x => key x == k) := by
        simp [List.filter_cons, hbeq]
      rw [hfil, if_pos (by simp [hk])]
      have hmk : m.lookup (key c) = m.lookup k := by rw [hk]
      rw [hmk]
      cases hm : m.lookup k with
      | some cur => simp [hm, List.foldl_cons]
      | none => simp [hm, List.foldl_cons]
    · have hbeq : (key c == k) = false := by
        simp only [beq_eq_false_iff_ne]
        exact fun hcontra => hk hcontra.symm
      have hfil : (c :: cs).filter (fun x => key x == k) =
          cs.filter (fun x => key x == k) := by
        simp [List.filter_cons, hbeq]
      rw [hfil, if_neg (by simp [hk])]

/-- Closed form of the channel counting pass. -/
theorem foldl_channelBump (mm : List (String × ContentMetrics)) :
    ∀ (ms : List ContentPiece) (cur : ChannelPerf),
      ms.foldl (channelBump mm) cur =
        { posts := cur.posts + ms.length
          views := cur.views + (ms.map (fun c => (metricsFor mm c.id).views)).sum
          engagement := cur.engagement + (ms.map (pieceEngagement mm)).sum
          avg_engagement_rate := cur.avg_engagement_rate } := by
  intro ms
  induction ms with
  | nil => intro cur; cases cur; simp
  | cons c ms ih =>
    intro cur
    rw [List.foldl_cons, ih]
    cases cur
    simp only [channelBump, List.length_cons, List.map_cons, List.sum_cons,
      ChannelPerf.mk.injEq, and_true]
    refine ⟨by omega, by ring, by ring⟩

/-- Closed form of the pillar/funnel counting passes: only the post count
moves; the rate field is carried through unchanged. -/
theorem foldl_groupBump :
    ∀ (ms : List ContentPiece) (cur : GroupPerf),
      ms.foldl groupBump cur =
        { posts := cur.posts + ms.length
          avg_engagement_rate := cur.avg_engagement_rate } := by
  intro ms
  induction ms with
  | nil => intro cur; cases cur; simp
  | cons c ms ih =>
    intro cur
    rw [List.foldl_cons, ih]
    cases cur
    simp only [groupBump, List.length_cons, GroupPerf.mk.injEq, and_true]
    omega

/-- Tracked metrics with a stored engagement rate of 50 for the C4
scenario. -/
def c4mm : List (String × ContentMetrics) :=
  [("c4", { content_id := "c4", views := 100, likes := 4, comments := 1, shares := 0,
            engagement_rate := 50, impressions := 10 })]

/-- A published-in-period piece for the C4 scenario. -/
def c4piece : ContentPiece :=
  { id := "c4", title := "t", content := "body", format := .post, pillar := "edu"
    funnel_stage := "awareness", channel := "linkedin", tone_of_voice := "pro"
    key_messages := [], status := .published, created_at := ⟨5, 12, 0⟩ }

/-- Counterexample to C4 as stated: the pillar group of a report contains
only a post count and a rate field frozen at its creation value 0.0 — it
carries no summed views or engagement, and its rate is not the mean over
the group's rate-positive members (here the single member has rate 50). -/
theorem C4_counterexample :
    (generate_report c4mm ⟨0, 0, 0⟩ ⟨10, 0, 0⟩ [c4piece]).pillar_performance.lookup "edu"
        = some { posts := 1, avg_engagement_rate := 0 } ∧
    positiveRates c4mm [c4piece] = [50] ∧
    (0 : ℚ) ≠ 50 := by
  refine ⟨by decide, by decide, by norm_num⟩

/-- C4 as amended: channel groups contain the group's post count, summed
views, summed engagement and the mean engagement rate over only the
group's rate-positive members (0 when none); pillar and funnel-stage
groups contain only the group's post count, with their
`avg_engagement_rate` field always 0.0 and no views/engagement sums. -/
theorem C4_group_performance (mm : List (String × ContentMetrics)) (sd ed : DT)
    (cl : List ContentPiece) :
    (∀ ch rec,
      (generate_report mm sd ed cl).channel_performance.lookup ch = some rec →
      rec.posts = ((periodFilter sd ed cl).filter (fun c => c.channel == ch)).length ∧
      rec.views = (((periodFilter sd ed cl).filter (fun c => c.channel == ch)).map
        (fun c => (metricsFor mm c.id).views)).sum ∧
      rec.engagement = (((periodFilter sd ed cl).filter (fun c => c.channel == ch)).map
        (pieceEngagement mm)).sum ∧
      rec.avg_engagement_rate =
        (if (positiveRates mm ((periodFilter sd ed cl).filter
              (fun c => c.channel == ch))).isEmpty then 0
         else (positiveRates mm ((periodFilter sd ed cl).filter
                (fun c => c.channel == ch))).sum /
              (positiveRates mm ((periodFilter sd ed cl).filter
                (fun c => c.channel == ch))).length)) ∧
    (∀ p rec,
      (generate_report mm sd ed cl).pillar_performance.lookup p = some rec →
      rec.posts = ((periodFilter sd ed cl).filter (fun c => c.pillar == p)).length ∧
      rec.avg_engagement_rate = 0) ∧
    (∀ fs rec,
      (generate_report mm sd ed cl).funnel_stage_performance.lookup fs = some rec →
      rec.posts = ((periodFilter sd ed cl).filter (fun c => c.funnel_stage == fs)).length ∧
      rec.avg_engagement_rate = 0) := by
  refine ⟨?_, ?_, ?_⟩
  · intro ch rec h
    have hcp : (generate_report mm sd ed cl).channel_performance =
        (accumGroups (fun c => c.channel) ({} : ChannelPerf) (channelBump mm) []
          (periodFilter sd ed cl)).map
          (fun e => (e.1, channelAvgFix mm (periodFilter sd ed cl) e.1 e.2)) := rfl
    rw [hcp, lookup_map_keyfix, accumGroups_lookup] at h
    simp only [List.lookup_nil] at h
    split at h
    · simp at h
    · next hne =>
      simp only [Option.map_some'] at h
      have hrec := (Option.some.injEq _ _ ▸ h).symm
      rw [foldl_channelBump] at hrec
      subst hrec
      unfold channelAvgFix
      by_cases hrates : (positiveRates mm ((periodFilter sd ed cl).filter
          (fun c => c.channel == ch))).isEmpty
      · simp only [hrates, if_true]
        refine ⟨by simp, by simp, by simp, by simp⟩
      · simp only [hrates, if_false]
        refine ⟨by simp, by simp, by simp, by simp⟩
  · intro p rec h
    have hpp : (generate_report mm sd ed cl).pillar_performance =
        accumGroups (fun c => c.pillar) ({} : GroupPerf) groupBump []
          (periodFilter sd ed cl) := rfl
    rw [hpp, accumGroups_lookup] at h
    simp only [List.lookup_nil] at h
    split at h
    · exact absurd h (by simp)
    · have hrec := (Option.some.injEq _ _ ▸ h).symm
      rw [foldl_groupBump] at hrec
      subst hrec
      exact ⟨by simp, rfl⟩
  · intro fs rec h
    have hfp : (generate_report mm sd ed cl).funnel_stage_performance =
        accumGroups (fun c => c.funnel_stage) ({} : GroupPerf) groupBump []
          (periodFilter sd ed cl) := rfl
    rw [hfp, accumGroups_lookup] at h
    simp only [List.lookup_nil] at h
    split at h
    · exact absurd h (by simp)
    · have hrec := (Option.some.injEq _ _ ▸ h).symm
      rw [foldl_groupBump] at hrec
      subst hrec
      exact ⟨by simp, rfl⟩

/-- Witness for C4 (amended) at the concrete single-piece report. -/
theorem C4_group_performance_witness :
    ({ posts := 1, avg_engagement_rate := 0 } : GroupPerf).posts =
      ((periodFilter ⟨0, 0, 0⟩ ⟨10, 0, 0⟩ [c4piece]).filter
        (fun c => c.pillar == "edu")).length ∧
    ({ posts := 1, avg_engagement_rate := 0 } : GroupPerf).avg_engagement_rate = 0 :=
  (C4_group_performance c4mm ⟨0, 0, 0⟩ ⟨10, 0, 0⟩ [c4piece]).2.1 "edu"
    { posts := 1, avg_engagement_rate := 0 } (by decide)

/-! ## Claim C10: the analytics report mutates the analyzed pieces -/

/-- The per-piece effect of `get_analytics_report`'s mutation loop on one
analyzed piece: every field other than `published_at`, `status` and
`metrics` is unchanged; an unset `published_at` with `created_at` inside
the period becomes `created_at` with the status forced to published, and
otherwise `published_at` and `status` are untouched; the metrics dict is
replaced by the demo-injected update exactly when the piece had no
tracked metrics at its turn (witnessed by the loop-time metrics map and
draw counter), and untouched otherwise. -/
def pieceRel (env : ReportEnv) (sd ed : DT) (p p' : ContentPiece) : Prop :=
  p'.id = p.id ∧ p'.title = p.title ∧ p'.content = p.content ∧ p'.format = p.format ∧
  p'.pillar = p.pillar ∧ p'.funnel_stage = p.funnel_stage ∧ p'.channel = p.channel ∧
  p'.tone_of_voice = p.tone_of_voice ∧ p'.key_messages = p.key_messages ∧
  p'.created_at = p.created_at ∧ p'.scheduled_for = p.scheduled_for ∧
  ((p.published_at = none ∧ (sd.leb p.created_at ∧ p.created_at.leb ed)) →
    p'.published_at = some p.created_at ∧ p'.status = ContentStatus.published) ∧
  (¬ (p.published_at = none ∧ (sd.leb p.created_at ∧ p.created_at.leb ed)) →
    p'.published_at = p.published_at ∧ p'.status = p.status) ∧
  ∃ mmi ki,
    ((mmi : List (String × ContentMetrics)).lookup p.id = none →
      p'.metrics = some (updateMetricsDict (p.metrics.getD []) (demoMetricsData env ki))) ∧
    (mmi.lookup p.id ≠ none → p'.metrics = p.metrics)

/-- One pass of `injectPiece` realises the per-piece effect. -/
theorem injectPiece_rel (env : ReportEnv) (sd ed : DT) (c : ContentPiece)
    (mm : List (String × ContentMetrics)) (k : Nat) :
    pieceRel env sd ed c (injectPiece env sd ed c mm k).1 := by
  by_cases h1 : (mm.lookup c.id).isNone
  · have hstep : (injectPiece env sd ed c mm k).1 =
        (if (c.published_at = none ∧ (sd.leb c.created_at ∧ c.created_at.leb ed)) then
          { c with
            metrics := some (updateMetricsDict (c.metrics.getD []) (demoMetricsData env k))
            published_at := some c.created_at
            status := ContentStatus.published }
        else { c with
            metrics := some (updateMetricsDict (c.metrics.getD [])
              (demoMetricsData env k)) }) := by
      simp only [injectPiece, track_content, h1, if_true]
    rw [hstep]
    by_cases h2 : (c.published_at = none ∧ (sd.leb c.created_at ∧ c.created_at.leb ed))
    · rw [if_pos h2]
      exact ⟨rfl, rfl, rfl, rfl, rfl, rfl, rfl, rfl, rfl, rfl, rfl,
        fun _ => ⟨rfl, rfl⟩, fun hn => absurd h2 hn, mm, k, fun _ => rfl,
        fun hne => absurd (Option.isNone_iff_eq_none.mp h1) hne⟩
    · rw [if_neg h2]
      exact ⟨rfl, rfl, rfl, rfl, rfl, rfl, rfl, rfl, rfl, rfl, rfl,
        fun hp => absurd hp h2, fun _ => ⟨rfl, rfl⟩, mm, k, fun _ => rfl,
        fun hne => absurd (Option.isNone_iff_eq_none.mp h1) hne⟩
  · have hlook : mm.lookup c.id ≠ none := by
      simpa [Option.isNone_iff_eq_none] using h1
    have hstep : (injectPiece env sd ed c mm k).1 =
        (if (c.published_at = none ∧ (sd.leb c.created_at ∧ c.created_at.leb ed)) then
          { c with published_at := some c.created_at, status := ContentStatus.published }
        else c) := by
      simp only [injectPiece, h1, Bool.false_eq_true, if_false]
    rw [hstep]
    by_cases h2 : (c.published_at = none ∧ (sd.leb c.created_at ∧ c.created_at.leb ed))
    · rw [if_pos h2]
      exact ⟨rfl, rfl, rfl, rfl, rfl, rfl, rfl, rfl, rfl, rfl, rfl,
        fun _ => ⟨rfl, rfl⟩, fun hn => absurd h2 hn, mm, k,
        fun he => absurd he hlook, fun _ => rfl⟩
    · rw [if_neg h2]
      exact ⟨rfl, rfl, rfl, rfl, rfl, rfl, rfl, rfl, rfl, rfl, rfl,
        fun hp => absurd hp h2, fun _ => ⟨rfl, rfl⟩, mm, k,
        fun he => absurd he hlook, fun _ => rfl⟩

/-- The mutation loop preserves the list length and realises the
per-piece effect pointwise. -/
theorem injectLoop_spec (env : ReportEnv) (sd ed : DT) :
    ∀ (cs : List ContentPiece) (mm : List (String × ContentMetrics)) (k : Nat),
      (injectLoop env sd ed cs mm k).1.length = cs.length ∧
      ∀ (i : Nat) (dflt : ContentPiece), i < cs.length →
        pieceRel env sd ed (cs.getD i dflt) ((injectLoop env sd ed cs mm k).1.getD i dflt) := by
  intro cs
  induction cs with
  | nil =>
    intro mm k
    exact ⟨rfl, fun i dflt h => absurd h (by simp)⟩
  | cons c cs ih =>
    intro mm k
    constructor
    · simpa [injectLoop] using
        (ih (injectPiece env sd ed c mm k).2.1 (injectPiece env sd ed c mm k).2.2).1
    · intro i dflt h
      match i with
      | 0 =>
        simpa [injectLoop] using injectPiece_rel env sd ed c mm k
      | Nat.succ j =>
        have hj : j < cs.length := by simpa using h
        simpa [injectLoop] using
          (ih (injectPiece env sd ed c mm k).2.1 (injectPiece env sd ed c mm k).2.2).2 j
            dflt hj

/-- C10: `get_analytics_report` is not read-only on the pieces it
analyzes — the returned analyzed list has the same length, and pointwise
each piece undergoes exactly the per-piece mutation effect: an unset
`published_at` whose `created_at` lies in the report period is set to
`created_at` with status forced to published, synthetic metrics are
injected into the piece's metrics dict when it had no tracked metrics,
and every other field is unchanged. -/
theorem C10_report_mutates_pieces (env : ReportEnv) (st : ContentAIAgentState)
    (days : Nat) (cl : List ContentPiece) :
    (get_analytics_report env st days (some cl)).2.2.length = cl.length ∧
    ∀ (i : Nat) (dflt : ContentPiece), i < cl.length →
      pieceRel env (env.now.addDays (-(days : Int))) env.now (cl.getD i dflt)
        ((get_analytics_report env st days (some cl)).2.2.getD i dflt) := by
  have h := injectLoop_spec env (env.now.addDays (-(days : Int))) env.now cl
    st.analytics_metrics 0
  exact h

/-- A piece created inside the period, unpublished and untracked, for the
C10 witness. -/
def c10piece : ContentPiece :=
  { id := "c10", title := "t", content := "body", format := .post, pillar := "edu"
    funnel_stage := "awareness", channel := "linkedin", tone_of_voice := "pro"
    key_messages := [], status := .draft, created_at := ⟨90, 12, 0⟩ }

/-- A concrete clock/randomness environment for the C10 witness. -/
def c10env : ReportEnv := ⟨⟨100, 0, 0⟩, fun _ => 0⟩

/-- Witness for C10 at index 0 of a one-piece analyzed list. -/
theorem C10_report_mutates_pieces_witness :
    pieceRel c10env (c10env.now.addDays (-(30 : Int))) c10env.now
      ([c10piece].getD 0 c10piece)
      ((get_analytics_report c10env {} 30 (some [c10piece])).2.2.getD 0 c10piece) :=
  (C10_report_mutates_pieces c10env {} 30 [c10piece]).2 0 c10piece (by decide)

end ContentAgent
